import Mathlib

/-!
# Verification of the solr-operator SolrCloud reconciliation core

A shallow embedding of the SolrCloud controller (`Reconcile`,
`reconcileCloudStatus`, `reconcileNodeService`, `reconcileZk`) and of the
Prometheus-exporter deployment generator
(`GenerateSolrPrometheusExporterDeployment`), together with theorems about
the reconciliation algorithm.

Kubernetes API calls are modelled by an environment (`Env`) that fixes the
outcome of every get / create / update / list the pass can issue, and the
pass itself is a pure function from that environment to a trace of issued
API actions, a result, and the computed status.  Helper methods of the API
types that are not part of the reviewed source (URL builders, name
generators, `ZkConnectionString`, `GenerateZookeeperCluster`, ...) are
modelled from the spec and marked as such in their doc comments.
-/

namespace SolrOperator

/-! ## Data model: API types (ZookeeperConnectionInfo, status, spec) -/

structure ZookeeperConnectionInfo where
  internalConnectionString : String := ""
  externalConnectionString : Option String := none
  chRoot : String := ""
  deriving DecidableEq

instance : Inhabited ZookeeperConnectionInfo := ⟨{}⟩

structure SolrNodeStatus where
  name : String := ""
  nodeName : String := ""
  internalAddress : String := ""
  externalAddress : String := ""
  version : String := ""
  ready : Bool := false
  deriving DecidableEq

instance : Inhabited SolrNodeStatus := ⟨{}⟩

structure SolrCloudStatus where
  solrNodes : List SolrNodeStatus := []
  replicas : Int := 0
  readyReplicas : Int := 0
  backupRestoreReady : Bool := false
  version : String := ""
  targetVersion : String := ""
  internalCommonAddress : String := ""
  externalCommonAddress : Option String := none
  zookeeperConnectionInfo : ZookeeperConnectionInfo := {}
  deriving DecidableEq

instance : Inhabited SolrCloudStatus := ⟨{}⟩

inductive ExternalMethod where
  | ingress
  | externalDNS
  deriving DecidableEq

structure ExternalAddressability where
  method : ExternalMethod := .ingress
  useExternalAddress : Bool := false
  hideNodes : Bool := false
  hideCommon : Bool := false
  domainName : String := ""
  deriving DecidableEq

structure SolrAddressability where
  external : Option ExternalAddressability := none
  deriving DecidableEq

structure ProvidedZookeeper where
  replicas : Nat := 3
  chRoot : String := "/"
  deriving DecidableEq

structure ZookeeperRef where
  connectionInfo : Option ZookeeperConnectionInfo := none
  providedZookeeper : Option ProvidedZookeeper := none
  deriving DecidableEq

structure ContainerImage where
  repository : String := ""
  tag : String := ""
  pullPolicy : String := ""
  imagePullSecret : String := ""
  deriving DecidableEq

structure SolrCloudSpec where
  replicas : Int := 0
  solrImage : ContainerImage := {}
  busyBoxImage : ContainerImage := {}
  zookeeperRef : ZookeeperRef := {}
  solrAddressability : SolrAddressability := {}
  backupRestoreVolume : Option String := none
  deriving DecidableEq

structure SolrCloud where
  name : String := ""
  ns : String := ""
  spec : SolrCloudSpec := {}
  status : SolrCloudStatus := {}
  deriving DecidableEq

/-- A worker pod as observed through the platform's pod list: the fields the
status aggregator reads (`p.Name`, `p.Spec.NodeName`,
`p.Spec.Containers[0].Image`, the `Ready` flags of
`p.Status.ContainerStatuses`, and the names of `p.Spec.Volumes`). -/
structure Pod where
  name : String := ""
  nodeName : String := ""
  firstContainerImage : String := ""
  containerStatuses : List Bool := []
  volumes : List String := []
  deriving DecidableEq

/-! ## Helper methods of the API types

The bodies of these methods are not part of the reviewed source (only the
two reviewed files are); where a claim depends on them they are modelled
from the spec, which describes them as deterministic naming conventions. -/

/-- Modelled from the spec: the name of the designated backup volume
(constant `util.BackupRestoreVolume`, not in the reviewed source). -/
def BackupRestoreVolume : String := "backup-restore"

/-- The characters after the last occurrence of `sep` (the whole input when
`sep` does not occur). -/
def lastSegmentAux (sep : Char) (cur : List Char) : List Char → List Char
  | [] => cur
  | c :: cs => if c = sep then lastSegmentAux sep [] cs else lastSegmentAux sep (cur ++ [c]) cs

/-- Modelled from the spec: `solr.ImageVersion` derives a pod's running
version from its container image name, i.e. the image's tag (the text after
the last colon). -/
def ImageVersion (image : String) : String :=
  String.mk (lastSegmentAux ':' [] image.data)

/-- `strings.Contains(s, ":")`: whether a string contains the given
character (a one-character substring). -/
def strContainsChar (s : String) (c : Char) : Bool :=
  s.data.contains c

/-- Modelled from the spec: `ZkConnectionString` of a status is the
coordination connection string, i.e. the internal connection string followed
by the chroot. -/
def SolrCloudStatus.zkConnectionString (st : SolrCloudStatus) : String :=
  st.zookeeperConnectionInfo.internalConnectionString ++ st.zookeeperConnectionInfo.chRoot

/-- Modelled from the spec: deterministic cluster-internal URL of a named
node (`InternalNodeUrl`, not in the reviewed source). -/
def SolrCloud.internalNodeUrl (sc : SolrCloud) (nodeName : String) : String :=
  nodeName ++ "." ++ sc.name ++ "-solrcloud-headless." ++ sc.ns ++ ":8983"

/-- Modelled from the spec: deterministic external URL of a named node
(`ExternalNodeUrl`, not in the reviewed source). -/
def SolrCloud.externalNodeUrl (sc : SolrCloud) (nodeName : String) (domainName : String) : String :=
  nodeName ++ "." ++ sc.ns ++ "." ++ domainName ++ ":80"

/-- Modelled from the spec: deterministic internal URL of the common
service (`InternalCommonUrl`, not in the reviewed source). -/
def SolrCloud.internalCommonUrl (sc : SolrCloud) : String :=
  sc.name ++ "-solrcloud-common." ++ sc.ns ++ ":80"

/-- Modelled from the spec: deterministic external URL of the common
service (`ExternalCommonUrl`, not in the reviewed source). -/
def SolrCloud.externalCommonUrl (sc : SolrCloud) (domainName : String) : String :=
  sc.name ++ "-solrcloud." ++ sc.ns ++ "." ++ domainName ++ ":80"

/-- Modelled from the spec: the host under which a node is advertised
externally (`AdvertisedNodeHost`, not in the reviewed source). -/
def SolrCloud.advertisedNodeHost (sc : SolrCloud) (nodeName : String) : String :=
  nodeName ++ "." ++ sc.ns ++ "." ++
    (match sc.spec.solrAddressability.external with
     | some ext => ext.domainName
     | none => "")

/-- Modelled from the spec: the node names implied by the replica topology
(`GetAllSolrNodeNames`, not in the reviewed source): one ordinal-indexed
name per declared replica. -/
def SolrCloud.getAllSolrNodeNames (sc : SolrCloud) : List String :=
  (List.range sc.spec.replicas.toNat).map (fun i => sc.name ++ "-solrcloud-" ++ toString i)

/-- Modelled from the spec: whether per-node ("individual") services are in
use (`UsesIndividualNodeServices`, not in the reviewed source) — the spec
ties this to external addressability being configured. -/
def SolrCloud.usesIndividualNodeServices (sc : SolrCloud) : Bool :=
  sc.spec.solrAddressability.external.isSome

/-- Modelled from the spec: whether the headless service is required by the
addressing mode (`UsesHeadlessService`, not in the reviewed source). -/
def SolrCloud.usesHeadlessService (sc : SolrCloud) : Bool :=
  !sc.usesIndividualNodeServices

/-! ## Status aggregator (`reconcileCloudStatus`, pure part)

The loop body over the listed pods, embedded as a left fold that mirrors the
source's single pass: it accumulates the divergent-version list (in pod list
order), the node-name list (in pod list order), the name-indexed node status
map (a Go map, i.e. later writes overwrite earlier ones), and the count of
backup-volume mounts. -/

/-- The `SolrNodeStatus` the loop body builds for one pod. -/
def nodeStatusOf (sc : SolrCloud) (p : Pod) : SolrNodeStatus :=
  { name := p.name
    nodeName := p.nodeName
    internalAddress := "http://" ++ sc.internalNodeUrl p.name
    externalAddress :=
      match sc.spec.solrAddressability.external with
      | some ext =>
          if !ext.hideNodes then
            "http://" ++ sc.externalNodeUrl p.name ext.domainName
          else ""
      | none => ""
    ready := !p.containerStatuses.isEmpty && p.containerStatuses.all (fun b => b)
    version :=
      if !p.containerStatuses.isEmpty then ImageVersion p.firstContainerImage else "" }

structure PodScan where
  otherVersions : List String := []
  nodeNames : List String := []
  nodeStatusMap : String → Option SolrNodeStatus := fun _ => none
  backupRestoreReadyPods : Nat := 0

/-- One iteration of the pod loop of `reconcileCloudStatus`. -/
def scanStep (sc : SolrCloud) (acc : PodScan) (p : Pod) : PodScan :=
  let nodeStatus := nodeStatusOf sc p
  let otherVersions :=
    if p.containerStatuses.isEmpty then acc.otherVersions
    else if nodeStatus.version != sc.spec.solrImage.tag then
      acc.otherVersions ++ [nodeStatus.version]
    else acc.otherVersions
  let backup :=
    if sc.spec.backupRestoreVolume.isSome then
      acc.backupRestoreReadyPods + p.volumes.countP (fun v => v == BackupRestoreVolume)
    else acc.backupRestoreReadyPods
  { otherVersions := otherVersions
    nodeNames := acc.nodeNames ++ [p.name]
    nodeStatusMap := fun k => if k == p.name then some nodeStatus else acc.nodeStatusMap k
    backupRestoreReadyPods := backup }

def scanPods (sc : SolrCloud) (pods : List Pod) : PodScan :=
  pods.foldl (scanStep sc) {}

/-- Lexicographic comparison on character lists (Go compares strings
byte-lexicographically; on UTF-8 data this is codepoint-lexicographic). -/
def charListLe : List Char → List Char → Bool
  | [], _ => true
  | _ :: _, [] => false
  | a :: as, b :: bs =>
    if a < b then true
    else if b < a then false
    else charListLe as bs

/-- Go's `<=` on strings: lexicographic on the character data. -/
def strLe (a b : String) : Bool :=
  charListLe a.data b.data

/-- `sort.Strings`: lexicographic sort of the node names. -/
def sortStrings (l : List String) : List String :=
  l.insertionSort (fun a b => strLe a b = true)

/-- The pure computation of `reconcileCloudStatus` on a successfully listed
pod set: the source's sequence of assignments to disjoint fields of
`newStatus`, written as one record update.  `BackupRestoreReady` is only
ever set (to `true`), never cleared; `TargetVersion`/`Version` are set on
both branches of the version-skew check; the external common address is set
only when external addressing is configured and not hidden. -/
def reconcileCloudStatusCompute (sc : SolrCloud) (pods : List Pod)
    (st : SolrCloudStatus) : SolrCloudStatus :=
  let scan := scanPods sc pods
  let sortedNames := sortStrings scan.nodeNames
  { st with
    solrNodes := sortedNames.map (fun n => (scan.nodeStatusMap n).getD {})
    backupRestoreReady :=
      if (scan.backupRestoreReadyPods : Int) = sc.spec.replicas ∧
          0 < scan.backupRestoreReadyPods then true
      else st.backupRestoreReady
    targetVersion :=
      match scan.otherVersions with
      | [] => ""
      | _ :: _ => sc.spec.solrImage.tag
    version :=
      match scan.otherVersions with
      | [] => sc.spec.solrImage.tag
      | v :: _ => v
    internalCommonAddress := "http://" ++ sc.internalCommonUrl
    externalCommonAddress :=
      match sc.spec.solrAddressability.external with
      | some ext =>
          if !ext.hideCommon then some ("http://" ++ sc.externalCommonUrl ext.domainName)
          else st.externalCommonAddress
      | none => st.externalCommonAddress }

/-! ## The convergence loop (`Reconcile`)

Kubernetes I/O is modelled by an environment fixing the outcome of every
API call a pass can make.  A pass is a pure function of the environment; it
produces the ordered trace of mutating/reading API calls it issued, the
`(ctrl.Result, error)` pair, and the computed status (the `newStatus` local
of the source).  Go early returns are modelled as an exception (`Exit`)
carrying either the early successful result or the propagated error. -/

/-- An opaque platform API error (any error that is not `IsNotFound`). -/
abbrev ApiError := Nat

inductive ReconcileError where
  | badRequest (msg : String)
  | api (e : ApiError)
  deriving DecidableEq

/-- Outcome of a `Get` call: success, not-found, or some other error. -/
inductive GetOutcome (α : Type) where
  | ok (obj : α)
  | notFound
  | err (e : ApiError)
  deriving DecidableEq

/-- The API calls a pass can issue, in the order issued. -/
inductive Action where
  | getInstance
  | updateInstanceSpec
  | getZkCluster
  | createZkCluster
  | updateZkCluster
  | getCommonService
  | createCommonService
  | updateCommonService
  | getNodeService (nodeName : String)
  | createNodeService (nodeName : String)
  | updateNodeService (nodeName : String)
  | getHeadlessService
  | createHeadlessService
  | updateHeadlessService
  | getConfigMap
  | createConfigMap
  | updateConfigMap
  | getStatefulSet
  | createStatefulSet
  | updateStatefulSet
  | listPods
  | getIngress
  | createIngress
  | updateIngress
  | updateStatus
  deriving DecidableEq

/-- The live `Service` fields the pass reads. -/
structure FoundService where
  clusterIP : String := ""
  deriving DecidableEq

/-- The live `StatefulSet` fields the pass reads. -/
structure FoundStatefulSet where
  statusReplicas : Int := 0
  statusReadyReplicas : Int := 0
  deriving DecidableEq

/-- The live `ZookeeperCluster` fields the pass reads (`ZookeeperPorts().Client`
is the cluster's client port, modelled as a plain field). -/
structure FoundZkCluster where
  name : String := ""
  ns : String := ""
  externalClientEndpoint : String := ""
  clientPort : Int := 2181
  deriving DecidableEq

/-- Environment of one `reconcileNodeService` call. -/
structure NodeServiceEnv where
  setRefErr : Option ApiError := none
  get : GetOutcome FoundService := .notFound
  copyChanged : Bool := false
  createErr : Option ApiError := none
  updateErr : Option ApiError := none

/-- Environment of one pass: the outcome of every API call it can issue.
`copyChanged` fields are the booleans returned by the `util.Copy*Fields`
merge helpers (external pure diff functions). -/
structure Env where
  getInstance : GetOutcome SolrCloud := .notFound
  withDefaultsChanged : Bool := false
  updateInstanceErr : Option ApiError := none
  zkSetRefErr : Option ApiError := none
  getZkCluster : GetOutcome FoundZkCluster := .notFound
  zkCopyChanged : Bool := false
  zkCreateErr : Option ApiError := none
  zkUpdateErr : Option ApiError := none
  commonSetRefErr : Option ApiError := none
  getCommonService : GetOutcome Unit := .notFound
  commonCopyChanged : Bool := false
  nodeEnv : String → NodeServiceEnv := fun _ => {}
  headlessSetRefErr : Option ApiError := none
  getHeadless : GetOutcome Unit := .notFound
  headlessCopyChanged : Bool := false
  headlessCreateErr : Option ApiError := none
  headlessUpdateErr : Option ApiError := none
  configMapSetRefErr : Option ApiError := none
  getConfigMap : GetOutcome Unit := .notFound
  configMapCopyChanged : Bool := false
  configMapCreateErr : Option ApiError := none
  configMapUpdateErr : Option ApiError := none
  ssSetRefErr : Option ApiError := none
  getStatefulSet : GetOutcome FoundStatefulSet := .notFound
  ssCopyChanged : Bool := false
  ssCreateErr : Option ApiError := none
  ssUpdateErr : Option ApiError := none
  listPods : Except ApiError (List Pod) := .ok []
  ingressSetRefErr : Option ApiError := none
  getIngress : GetOutcome Unit := .notFound
  ingressCopyChanged : Bool := false
  ingressCreateErr : Option ApiError := none
  ingressUpdateErr : Option ApiError := none
  statusUpdateErr : Option ApiError := none

/-- The process-wide configuration flags (set once at operator startup). -/
structure Config where
  useZkCRD : Bool := false
  ingressBaseUrl : String := ""

/-! ### The pass as a state-and-exception computation -/

/-- State threaded through a pass: the trace of issued API calls and the
`newStatus` local being computed. -/
structure RState where
  trace : List Action := []
  status : SolrCloudStatus := {}

/-- A Go early `return`: either a successful result (with its requeue flag)
or a propagated error. -/
inductive Exit where
  | done (requeue : Bool)
  | fail (e : ReconcileError)
  deriving DecidableEq

/-- Outcome of one step of the pass: the API calls it issued, the updated
`newStatus`, and either a value or an early return. -/
structure StepRes (α : Type) where
  emitted : List Action
  status : SolrCloudStatus
  out : Except Exit α

abbrev RM (α : Type) := RState → RState × Except Exit α

def runStep (f : SolrCloudStatus → StepRes α) : RM α := fun s =>
  let r := f s.status
  ({ trace := s.trace ++ r.emitted, status := r.status }, r.out)

instance : Monad RM where
  pure := fun a s => (s, Except.ok a)
  bind := fun m f s =>
    match m s with
    | (s', Except.ok a) => f a s'
    | (s', Except.error e) => (s', Except.error e)

/-! ### The coordination (Zookeeper) sub-flow: `reconcileZk` -/

/-- The generated `ZookeeperCluster` descriptor fields the pass reads. -/
structure GeneratedZkCluster where
  name : String
  ns : String
  replicas : Nat
  deriving DecidableEq

/-- Modelled from the spec: `util.GenerateZookeeperCluster` (not in the
reviewed source) maps the desired state to a coordination-cluster
descriptor keyed by the DesiredState identity and carrying the declared
replica count of the provision request. -/
def GenerateZookeeperCluster (sc : SolrCloud) (pzk : ProvidedZookeeper) : GeneratedZkCluster :=
  { name := sc.name ++ "-solrcloud-zookeeper", ns := sc.ns, replicas := pzk.replicas }

/-- Result of `reconcileZk`: the API calls issued, the value written to
`newStatus.ZookeeperConnectionInfo` (if any), and the returned error. -/
structure ZkResult where
  emitted : List Action
  write : Option ZookeeperConnectionInfo
  err : Option ReconcileError
  deriving DecidableEq

/-- `reconcileZk`: resolve the coordination dependency.  Adopt an external
connection string verbatim; or, when provisioning is requested, require the
Zookeeper CRD integration, create the cluster if absent, and when it exists
derive the connection strings from it; otherwise fail with a bad request. -/
def reconcileZk (cfg : Config) (env : Env) (sc : SolrCloud)
    (busyBoxImage : ContainerImage) : ZkResult :=
  let _ := busyBoxImage
  match sc.spec.zookeeperRef.connectionInfo with
  | some ci => { emitted := [], write := some ci, err := none }
  | none =>
    match sc.spec.zookeeperRef.providedZookeeper with
    | some pzk =>
      if !cfg.useZkCRD then
        { emitted := [], write := none,
          err := some (.badRequest "Cannot create a Zookeeper Cluster, as the Solr Operator is not configured to use the Zookeeper CRD") }
      else
        let zkCluster := GenerateZookeeperCluster sc pzk
        match env.zkSetRefErr with
        | some e => { emitted := [], write := none, err := some (.api e) }
        | none =>
          match env.getZkCluster with
          | .notFound =>
            { emitted := [.getZkCluster, .createZkCluster], write := none,
              err := env.zkCreateErr.map ReconcileError.api }
          | .ok foundZkCluster =>
            let emitted := [Action.getZkCluster] ++
              (if env.zkCopyChanged then [Action.updateZkCluster] else [])
            let err := if env.zkCopyChanged then env.zkUpdateErr.map ReconcileError.api else none
            let external :=
              if foundZkCluster.externalClientEndpoint == "" then none
              else some foundZkCluster.externalClientEndpoint
            let internal := (List.range zkCluster.replicas).map (fun i =>
              foundZkCluster.name ++ "-" ++ toString i ++ "." ++ foundZkCluster.name ++
                "-headless." ++ foundZkCluster.ns ++ ":" ++ toString foundZkCluster.clientPort)
            { emitted := emitted,
              write := some { internalConnectionString := String.intercalate "," internal,
                              externalConnectionString := external,
                              chRoot := pzk.chRoot },
              err := err }
          | .err e => { emitted := [.getZkCluster], write := none, err := some (.api e) }
    | none =>
      { emitted := [], write := none,
        err := some (.badRequest "No Zookeeper reference information provided.") }

/-! ### The per-node service sub-flow: `reconcileNodeService` and its loop -/

structure NodeServiceResult where
  emitted : List Action
  ip : String
  err : Option ApiError
  deriving DecidableEq

/-- `reconcileNodeService`: ensure the per-node service exists and return
its resolved cluster IP (empty when not yet assigned; note the source also
reads the IP when the merge-update fails). -/
def reconcileNodeService (e : NodeServiceEnv) (nodeName : String) : NodeServiceResult :=
  match e.setRefErr with
  | some er => { emitted := [], ip := "", err := some er }
  | none =>
    match e.get with
    | .notFound =>
      { emitted := [.getNodeService nodeName, .createNodeService nodeName],
        ip := "", err := e.createErr }
    | .ok foundService =>
      { emitted := [Action.getNodeService nodeName] ++
          (if e.copyChanged then [Action.updateNodeService nodeName] else []),
        ip := foundService.clusterIP,
        err := if e.copyChanged then e.updateErr else none }
    | .err er => { emitted := [.getNodeService nodeName], ip := "", err := some er }

structure NodeLoopResult where
  emitted : List Action
  blocked : Bool
  hostMap : List (String × String)
  err : Option ApiError

/-- The per-node loop of `Reconcile`: reconcile each node's service in
order, stopping only on error; when external addresses are advertised, an
empty IP sets the defer-workload-set flag, a non-empty IP is collected into
the hostname map.  (The source dereferences
`Spec.SolrAddressability.External` here, which the surrounding individual-
services guard guarantees to be present.) -/
def reconcileNodeServices (env : Env) (sc : SolrCloud) :
    List String → Bool → List (String × String) → NodeLoopResult
  | [], blocked, m => { emitted := [], blocked := blocked, hostMap := m, err := none }
  | nodeName :: rest, blocked, m =>
    let r := reconcileNodeService (env.nodeEnv nodeName) nodeName
    match r.err with
    | some e => { emitted := r.emitted, blocked := blocked, hostMap := m, err := some e }
    | none =>
      let useExt :=
        match sc.spec.solrAddressability.external with
        | some ext => ext.useExternalAddress
        | none => false
      let next :=
        if useExt then
          if r.ip == "" then (true, m)
          else (blocked, m ++ [(sc.advertisedNodeHost nodeName, r.ip)])
        else (blocked, m)
      let rest' := reconcileNodeServices env sc rest next.1 next.2
      { emitted := r.emitted ++ rest'.emitted, blocked := rest'.blocked,
        hostMap := rest'.hostMap, err := rest'.err }

/-! ### The steps of one pass, in source order -/

def fetchPure (env : Env) (st : SolrCloudStatus) : StepRes SolrCloud :=
  match env.getInstance with
  | .ok sc => ⟨[.getInstance], st, .ok sc⟩
  | .notFound => ⟨[.getInstance], st, .error (.done false)⟩
  | .err e => ⟨[.getInstance], st, .error (.fail (.api e))⟩

/-- `WithDefaults` normalization: when anything changed, persist the spec
update and requeue without proceeding. -/
def defaultsPure (env : Env) (st : SolrCloudStatus) : StepRes Unit :=
  if env.withDefaultsChanged then
    match env.updateInstanceErr with
    | some e => ⟨[.updateInstanceSpec], st, .error (.fail (.api e))⟩
    | none => ⟨[.updateInstanceSpec], st, .error (.done true)⟩
  else ⟨[], st, .ok ()⟩

/-- The `reconcileZk` call as a step: its status write happens even when it
also returns an error (the source sets `newStatus.ZookeeperConnectionInfo`
before returning the update error). -/
def zkPure (cfg : Config) (env : Env) (sc : SolrCloud) (st : SolrCloudStatus) : StepRes Unit :=
  let r := reconcileZk cfg env sc sc.spec.busyBoxImage
  let st' :=
    match r.write with
    | some info => { st with zookeeperConnectionInfo := info }
    | none => st
  ⟨r.emitted, st',
    match r.err with
    | some e => .error (.fail e)
    | none => .ok ()⟩

/-- Common service reconciliation.  Note: the source checks the `Get` error
but does not re-check `err` after `Create`/`Update`, so a create or update
failure of the common service is swallowed and the pass continues. -/
def commonServicePure (env : Env) (st : SolrCloudStatus) : StepRes Unit :=
  match env.commonSetRefErr with
  | some e => ⟨[], st, .error (.fail (.api e))⟩
  | none =>
    match env.getCommonService with
    | .notFound => ⟨[.getCommonService, .createCommonService], st, .ok ()⟩
    | .ok _ =>
      ⟨[Action.getCommonService] ++
        (if env.commonCopyChanged then [Action.updateCommonService] else []), st, .ok ()⟩
    | .err e => ⟨[.getCommonService], st, .error (.fail (.api e))⟩

/-- The per-node services block, guarded by individual addressing; returns
the defer-workload-set flag. -/
def nodeServicesPure (env : Env) (sc : SolrCloud) (st : SolrCloudStatus) : StepRes Bool :=
  if sc.usesIndividualNodeServices then
    let r := reconcileNodeServices env sc sc.getAllSolrNodeNames false []
    match r.err with
    | some e => ⟨r.emitted, st, .error (.fail (.api e))⟩
    | none => ⟨r.emitted, st, .ok r.blocked⟩
  else ⟨[], st, .ok false⟩

def headlessPure (env : Env) (sc : SolrCloud) (st : SolrCloudStatus) : StepRes Unit :=
  if sc.usesHeadlessService then
    match env.headlessSetRefErr with
    | some e => ⟨[], st, .error (.fail (.api e))⟩
    | none =>
      match env.getHeadless with
      | .notFound =>
        ⟨[.getHeadlessService, .createHeadlessService], st,
          match env.headlessCreateErr with
          | some e => .error (.fail (.api e))
          | none => .ok ()⟩
      | .ok _ =>
        if env.headlessCopyChanged then
          ⟨[.getHeadlessService, .updateHeadlessService], st,
            match env.headlessUpdateErr with
            | some e => .error (.fail (.api e))
            | none => .ok ()⟩
        else ⟨[.getHeadlessService], st, .ok ()⟩
      | .err e => ⟨[.getHeadlessService], st, .error (.fail (.api e))⟩
  else ⟨[], st, .ok ()⟩

def configMapPure (env : Env) (st : SolrCloudStatus) : StepRes Unit :=
  match env.configMapSetRefErr with
  | some e => ⟨[], st, .error (.fail (.api e))⟩
  | none =>
    match env.getConfigMap with
    | .notFound =>
      ⟨[.getConfigMap, .createConfigMap], st,
        match env.configMapCreateErr with
        | some e => .error (.fail (.api e))
        | none => .ok ()⟩
    | .ok _ =>
      if env.configMapCopyChanged then
        ⟨[.getConfigMap, .updateConfigMap], st,
          match env.configMapUpdateErr with
          | some e => .error (.fail (.api e))
          | none => .ok ()⟩
      else ⟨[.getConfigMap], st, .ok ()⟩
    | .err e => ⟨[.getConfigMap], st, .error (.fail (.api e))⟩

/-- The replicated-workload-set step: blocked when the node loop raised the
defer flag or the computed coordination connection string has no
host-port separator; when it runs and the live object exists, the
status replica counters are read back (even when the update fails). -/
def statefulSetPure (env : Env) (blocked : Bool) (st : SolrCloudStatus) : StepRes Unit :=
  let blocked := blocked || !(strContainsChar st.zkConnectionString ':')
  if blocked then ⟨[], st, .ok ()⟩
  else
    match env.ssSetRefErr with
    | some e => ⟨[], st, .error (.fail (.api e))⟩
    | none =>
      match env.getStatefulSet with
      | .notFound =>
        ⟨[.getStatefulSet, .createStatefulSet], st,
          match env.ssCreateErr with
          | some e => .error (.fail (.api e))
          | none => .ok ()⟩
      | .ok foundStatefulSet =>
        let st' := { st with replicas := foundStatefulSet.statusReplicas,
                             readyReplicas := foundStatefulSet.statusReadyReplicas }
        if env.ssCopyChanged then
          ⟨[.getStatefulSet, .updateStatefulSet], st',
            match env.ssUpdateErr with
            | some e => .error (.fail (.api e))
            | none => .ok ()⟩
        else ⟨[.getStatefulSet], st', .ok ()⟩
      | .err e => ⟨[.getStatefulSet], st, .error (.fail (.api e))⟩

/-- `reconcileCloudStatus` as a step: list the pods and recompute the
status from them. -/
def cloudStatusPure (env : Env) (sc : SolrCloud) (st : SolrCloudStatus) : StepRes Unit :=
  match env.listPods with
  | .ok foundPods => ⟨[.listPods], reconcileCloudStatusCompute sc foundPods st, .ok ()⟩
  | .error e => ⟨[.listPods], st, .error (.fail (.api e))⟩

/-- The ingress step, run only when the external addressing method is
ingress. -/
def ingressPure (env : Env) (sc : SolrCloud) (st : SolrCloudStatus) : StepRes Unit :=
  match sc.spec.solrAddressability.external with
  | some ext =>
    if ext.method = ExternalMethod.ingress then
      match env.ingressSetRefErr with
      | some e => ⟨[], st, .error (.fail (.api e))⟩
      | none =>
        match env.getIngress with
        | .notFound =>
          ⟨[.getIngress, .createIngress], st,
            match env.ingressCreateErr with
            | some e => .error (.fail (.api e))
            | none => .ok ()⟩
        | .ok _ =>
          if env.ingressCopyChanged then
            ⟨[.getIngress, .updateIngress], st,
              match env.ingressUpdateErr with
              | some e => .error (.fail (.api e))
              | none => .ok ()⟩
          else ⟨[.getIngress], st, .ok ()⟩
        | .err e => ⟨[.getIngress], st, .error (.fail (.api e))⟩
    else ⟨[], st, .ok ()⟩
  | none => ⟨[], st, .ok ()⟩

/-- Persist the status sub-resource only when the freshly computed status
differs (deep equality) from the stored one. -/
def persistPure (env : Env) (sc : SolrCloud) (st : SolrCloudStatus) : StepRes Unit :=
  if st = sc.status then ⟨[], st, .ok ()⟩
  else
    ⟨[.updateStatus], st,
      match env.statusUpdateErr with
      | some e => .error (.fail (.api e))
      | none => .ok ()⟩

/-- The final steps of a pass: the conditional workload-set step, the
status recomputation, the conditional ingress step, and the conditional
status write. -/
def reconcileTail (env : Env) (sc : SolrCloud) (blocked : Bool) : RM Unit := do
  runStep (statefulSetPure env blocked)
  runStep (cloudStatusPure env sc)
  runStep (ingressPure env sc)
  runStep (persistPure env sc)

/-- The body of `Reconcile`, step by step in source order. -/
def reconcileMain (cfg : Config) (env : Env) : RM Unit := do
  let sc ← runStep (fetchPure env)
  runStep (defaultsPure env)
  runStep (zkPure cfg env sc)
  runStep (commonServicePure env)
  let blocked ← runStep (nodeServicesPure env sc)
  runStep (headlessPure env sc)
  runStep (configMapPure env)
  reconcileTail env sc blocked

/-- Observable outcome of one pass: the API-call trace, the
`(ctrl.Result, error)` pair (`Bool` is the requeue flag), and the final
value of the `newStatus` local. -/
structure ReconcileOutput where
  trace : List Action
  result : Except ReconcileError Bool
  status : SolrCloudStatus

/-- One invocation of the convergence loop. -/
def Reconcile (cfg : Config) (env : Env) : ReconcileOutput :=
  match reconcileMain cfg env {} with
  | (s, .ok ()) => ⟨s.trace, .ok false, s.status⟩
  | (s, .error (.done b)) => ⟨s.trace, .ok b, s.status⟩
  | (s, .error (.fail e)) => ⟨s.trace, .error e, s.status⟩

/-! ### Derived notions used in the statements of the properties -/

/-- The divergent versions the pod loop collects, in the order the pods
appear in the list: for every pod with at least one container status whose
running version differs from the spec's target tag, that version. -/
def divergentVersions (sc : SolrCloud) (pods : List Pod) : List String :=
  pods.filterMap (fun p =>
    if p.containerStatuses.isEmpty then none
    else if ImageVersion p.firstContainerImage != sc.spec.solrImage.tag then
      some (ImageVersion p.firstContainerImage)
    else none)

/-- The spec's reading of the version-skew rule, stated from its words:
the first divergent version in pod-name-sorted (lexicographic) order. -/
def specFirstDivergentPodNameSorted (sc : SolrCloud) (pods : List Pod) : Option String :=
  (divergentVersions sc
    (pods.insertionSort (fun p q => strLe p.name q.name = true))).head?

/-- Total number of backup-volume entries across the pods' volume lists. -/
def backupMountCount (pods : List Pod) : Nat :=
  (pods.map (fun p => p.volumes.countP (fun v => v == BackupRestoreVolume))).sum

/-- Not a create or update of the replicated workload set. -/
def NotSS (a : Action) : Prop :=
  a ≠ Action.createStatefulSet ∧ a ≠ Action.updateStatefulSet

/-- Every action a computation adds to the trace satisfies `NotSS`. -/
def TraceAllU {α : Type} (m : RM α) : Prop :=
  ∀ s, (∀ a ∈ s.trace, NotSS a) → ∀ a ∈ (m s).1.trace, NotSS a

/-- Like `TraceAllU`, but only for runs whose resulting computed status has
no host-port separator in its coordination connection string. -/
def TraceAllC {α : Type} (m : RM α) : Prop :=
  ∀ s, (∀ a ∈ s.trace, NotSS a) →
    strContainsChar ((m s).1.status).zkConnectionString ':' = false →
    ∀ a ∈ (m s).1.trace, NotSS a

/-- The computation leaves the coordination connection info of the status
unchanged. -/
def ZkPres {α : Type} (m : RM α) : Prop :=
  ∀ s, ((m s).1.status).zookeeperConnectionInfo = s.status.zookeeperConnectionInfo

/-- The computation never ends in a propagated error. -/
def NoFailRM {α : Type} (m : RM α) : Prop :=
  ∀ s e, (m s).2 ≠ Except.error (Exit.fail e)

/-- Whether a `reconcileZk` outcome is the non-retryable "bad request". -/
def ZkResult.isBadRequest (r : ZkResult) : Bool :=
  match r.err with
  | some (.badRequest _) => true
  | _ => false

/-- The cluster IP a node-service reconcile observes: the live service's
`ClusterIP` when it exists, empty otherwise. -/
def nodeServiceIp (e : NodeServiceEnv) : String :=
  match e.get with
  | .ok f => f.clusterIP
  | _ => ""

/-- No API call of this node-service environment fails. -/
def NodeServiceEnv.noErrors (e : NodeServiceEnv) : Prop :=
  e.setRefErr = none ∧ e.createErr = none ∧ e.updateErr = none ∧
    ∀ er, e.get ≠ .err er

/-- No API call of the pass fails: every get succeeds or is not-found,
every create/update/list/ownership-wiring call succeeds. -/
def Env.noErrors (env : Env) : Prop :=
  (∀ e, env.getInstance ≠ .err e) ∧
  env.updateInstanceErr = none ∧
  env.zkSetRefErr = none ∧ (∀ e, env.getZkCluster ≠ .err e) ∧
  env.zkCreateErr = none ∧ env.zkUpdateErr = none ∧
  env.commonSetRefErr = none ∧ (∀ e, env.getCommonService ≠ .err e) ∧
  (∀ n, (env.nodeEnv n).noErrors) ∧
  env.headlessSetRefErr = none ∧ (∀ e, env.getHeadless ≠ .err e) ∧
  env.headlessCreateErr = none ∧ env.headlessUpdateErr = none ∧
  env.configMapSetRefErr = none ∧ (∀ e, env.getConfigMap ≠ .err e) ∧
  env.configMapCreateErr = none ∧ env.configMapUpdateErr = none ∧
  env.ssSetRefErr = none ∧ (∀ e, env.getStatefulSet ≠ .err e) ∧
  env.ssCreateErr = none ∧ env.ssUpdateErr = none ∧
  (∀ e, env.listPods ≠ .error e) ∧
  env.ingressSetRefErr = none ∧ (∀ e, env.getIngress ≠ .err e) ∧
  env.ingressCreateErr = none ∧ env.ingressUpdateErr = none ∧
  env.statusUpdateErr = none

/-- The coordination reference can be resolved without a configuration
error: an external connection string is supplied, or provisioning is
requested while the Zookeeper CRD integration is enabled. -/
def ZkRefOk (cfg : Config) (sc : SolrCloud) : Prop :=
  sc.spec.zookeeperRef.connectionInfo.isSome = true ∨
    (sc.spec.zookeeperRef.providedZookeeper.isSome = true ∧ cfg.useZkCRD = true)

/-! ## The Prometheus-exporter deployment generator

Data model of `SolrPrometheusExporter` (from the API type source) and of
the deployment descriptor fields `GenerateSolrPrometheusExporterDeployment`
sets.  Go maps are embedded as association lists with an upsert; the
pointer mutation of the passed-in exporter is embedded by returning the
updated exporter alongside the generated deployment. -/

def SolrPrometheusExporterTechnologyLabel : String := "solr-prometheus-exporter"

def SolrMetricsPort : Int := 8080

def SolrMetricsPortName : String := "solr-metrics"

def ExtSolrMetricsPort : Int := 80

def ExtSolrMetricsPortName : String := "ext-solr-metrics"

def DefaultPrometheusExporterEntrypoint : String :=
  "/opt/solr/contrib/prometheus-exporter/bin/solr-exporter"

/-- Modelled from the spec: `ContainerImage.ToImageName` (not in the
reviewed source) joins repository and tag. -/
def ContainerImage.toImageName (ci : ContainerImage) : String :=
  ci.repository ++ ":" ++ ci.tag

structure ResourceRequirements where
  limits : Option (List (String × String)) := none
  requests : Option (List (String × String)) := none
  deriving DecidableEq

structure PodOptions where
  affinity : Option String := none
  resources : ResourceRequirements := {}
  deriving DecidableEq

structure CustomPrometheusKubeOptions where
  podOptions : Option PodOptions := none
  deploymentOptions : Option Unit := none
  configMapOptions : Option Unit := none
  deriving DecidableEq

structure StandaloneSolrReference where
  address : String := ""
  deriving DecidableEq

structure SolrCloudReference where
  name : String := ""
  ns : String := ""
  zookeeperConnectionInfo : Option ZookeeperConnectionInfo := none
  deriving DecidableEq

structure SolrReference where
  cloud : Option SolrCloudReference := none
  standalone : Option StandaloneSolrReference := none
  deriving DecidableEq

structure SolrPrometheusExporterSpec where
  solrReference : SolrReference := {}
  image : Option ContainerImage := none
  customPrometheusKubeOptions : CustomPrometheusKubeOptions := {}
  exporterEntrypoint : String := ""
  numThreads : Int := 0
  scrapeInterval : Int := 0
  config : String := ""
  deriving DecidableEq

structure SolrPrometheusExporterStatus where
  ready : Bool := false
  deriving DecidableEq

structure SolrPrometheusExporter where
  name : String := ""
  ns : String := ""
  labels : List (String × String) := []
  spec : SolrPrometheusExporterSpec := {}
  status : SolrPrometheusExporterStatus := {}
  deriving DecidableEq

/-- One, and only one, of Cloud or Standalone must be provided. -/
structure SolrConnectionInfo where
  cloudZkConnnectionString : String := ""
  standaloneAddress : String := ""
  deriving DecidableEq

/-- Setting a key in a Go map, embedded on association lists. -/
def upsertLabel (m : List (String × String)) (k v : String) : List (String × String) :=
  if m.any (fun kv => kv.1 == k) then m.map (fun kv => if kv.1 == k then (k, v) else kv)
  else m ++ [(k, v)]

/-- `SharedLabelsWith`: copy the given labels and set the technology label
key to the exporter's name. -/
def SolrPrometheusExporter.sharedLabelsWith (spe : SolrPrometheusExporter)
    (labels : List (String × String)) : List (String × String) :=
  upsertLabel labels SolrPrometheusExporterTechnologyLabel spe.name

def SolrPrometheusExporter.sharedLabels (spe : SolrPrometheusExporter) :
    List (String × String) :=
  spe.sharedLabelsWith []

def SolrPrometheusExporter.metricsDeploymentName (sc : SolrPrometheusExporter) : String :=
  sc.name ++ "-solr-metrics"

def SolrPrometheusExporter.metricsConfigMapName (sc : SolrPrometheusExporter) : String :=
  sc.name ++ "-solr-metrics"

def SolrPrometheusExporter.metricsServiceName (sc : SolrPrometheusExporter) : String :=
  sc.name ++ "-solr-metrics"

structure Probe where
  initialDelaySeconds : Int := 0
  periodSeconds : Int := 0
  path : String := ""
  port : Int := 0
  deriving DecidableEq

structure ExporterVolume where
  name : String := ""
  configMapName : String := ""
  items : List (String × String) := []
  deriving DecidableEq

structure ExporterContainer where
  name : String := ""
  image : String := ""
  pullPolicy : String := ""
  ports : List (Int × String) := []
  volumeMounts : List (String × String × Bool) := []
  command : List String := []
  args : List String := []
  livenessProbe : Probe := {}
  resources : ResourceRequirements := {}
  deriving DecidableEq

structure Deployment where
  name : String := ""
  ns : String := ""
  labels : List (String × String) := []
  selectorMatchLabels : List (String × String) := []
  replicas : Int := 1
  terminationGracePeriodSeconds : Int := 0
  fsGroup : Int := 0
  volumes : List ExporterVolume := []
  imagePullSecrets : List String := []
  containers : List ExporterContainer := []
  affinity : Option String := none
  deriving DecidableEq

/-- `GenerateSolrPrometheusExporterDeployment`.  The source takes the
exporter by pointer and initializes `Spec.CustomPrometheusKubeOptions.PodOptions`
in place when it is nil; the embedding returns the possibly-updated
exporter as the second component.  (`Spec.Image` is a pointer the source
dereferences; after defaulting it is always set, embedded as `getD {}`.) -/
def GenerateSolrPrometheusExporterDeployment (solrPrometheusExporter : SolrPrometheusExporter)
    (solrConnectionInfo : SolrConnectionInfo) : Deployment × SolrPrometheusExporter :=
  let gracePeriodTerm : Int := 10
  let singleReplica : Int := 1
  let fsGroup : Int := SolrMetricsPort
  let labels := solrPrometheusExporter.sharedLabelsWith solrPrometheusExporter.labels
  let selectorLabels := solrPrometheusExporter.sharedLabels
  let labels := upsertLabel labels "technology" SolrPrometheusExporterTechnologyLabel
  let selectorLabels := upsertLabel selectorLabels "technology" SolrPrometheusExporterTechnologyLabel
  let image := solrPrometheusExporter.spec.image.getD {}
  let exporterArgs := ["-p", toString SolrMetricsPort,
                       "-n", toString solrPrometheusExporter.spec.numThreads]
  let exporterArgs :=
    if solrPrometheusExporter.spec.scrapeInterval > 0 then
      exporterArgs ++ ["-s", toString solrPrometheusExporter.spec.scrapeInterval]
    else exporterArgs
  let exporterArgs :=
    if solrConnectionInfo.cloudZkConnnectionString != "" then
      exporterArgs ++ ["-z", solrConnectionInfo.cloudZkConnnectionString]
    else if solrConnectionInfo.standaloneAddress != "" then
      exporterArgs ++ ["-b", solrConnectionInfo.standaloneAddress]
    else exporterArgs
  let confTriple :=
    if solrPrometheusExporter.spec.config != "" then
      ([{ name := "solr-prometheus-exporter-xml"
          configMapName := solrPrometheusExporter.metricsConfigMapName
          items := [("solr-prometheus-exporter.xml", "solr-prometheus-exporter.xml")] }],
       [("solr-prometheus-exporter-xml", "/opt/solr-exporter", true)],
       exporterArgs ++ ["-f", "/opt/solr-exporter/solr-prometheus-exporter.xml"])
    else
      (([] : List ExporterVolume), ([] : List (String × String × Bool)),
       exporterArgs ++ ["-f", "/opt/solr/contrib/prometheus-exporter/conf/solr-exporter-config.xml"])
  let solrVolumes := confTriple.1
  let volumeMounts := confTriple.2.1
  let exporterArgs := confTriple.2.2
  let entrypoint :=
    if solrPrometheusExporter.spec.exporterEntrypoint != "" then
      solrPrometheusExporter.spec.exporterEntrypoint
    else DefaultPrometheusExporterEntrypoint
  let deployment : Deployment :=
    { name := solrPrometheusExporter.metricsDeploymentName
      ns := solrPrometheusExporter.ns
      labels := labels
      selectorMatchLabels := selectorLabels
      replicas := singleReplica
      terminationGracePeriodSeconds := gracePeriodTerm
      fsGroup := fsGroup
      volumes := solrVolumes
      imagePullSecrets := []
      containers := [{ name := "solr-prometheus-exporter"
                       image := image.toImageName
                       pullPolicy := image.pullPolicy
                       ports := [(SolrMetricsPort, SolrMetricsPortName)]
                       volumeMounts := volumeMounts
                       command := [entrypoint]
                       args := exporterArgs
                       livenessProbe := { initialDelaySeconds := 20, periodSeconds := 10,
                                          path := "/metrics", port := SolrMetricsPort } }]
      affinity := none }
  let deployment :=
    if image.imagePullSecret != "" then
      { deployment with imagePullSecrets := [image.imagePullSecret] }
    else deployment
  let solrPrometheusExporter :=
    if solrPrometheusExporter.spec.customPrometheusKubeOptions.podOptions = none then
      { solrPrometheusExporter with spec :=
          { solrPrometheusExporter.spec with customPrometheusKubeOptions :=
              { solrPrometheusExporter.spec.customPrometheusKubeOptions with
                  podOptions := some {} } } }
    else solrPrometheusExporter
  let podOpts := solrPrometheusExporter.spec.customPrometheusKubeOptions.podOptions.getD {}
  let deployment :=
    match podOpts.affinity with
    | some aff => { deployment with affinity := some aff }
    | none => deployment
  let deployment :=
    if podOpts.resources.limits.isSome || podOpts.resources.requests.isSome then
      { deployment with containers :=
          deployment.containers.map (fun c => { c with resources := podOpts.resources }) }
    else deployment
  (deployment, solrPrometheusExporter)

/-! ## Properties of the lexicographic order used by the sort -/

theorem charListLe_total : ∀ x y : List Char, charListLe x y = true ∨ charListLe y x = true
  | [], _ => Or.inl rfl
  | _ :: _, [] => Or.inr rfl
  | a :: as, b :: bs => by
    rcases lt_trichotomy a b with h | h | h
    · left; simp [charListLe, h]
    · subst h
      rcases charListLe_total as bs with hr | hr
      · left; simp [charListLe, lt_irrefl, hr]
      · right; simp [charListLe, lt_irrefl, hr]
    · right; simp [charListLe, h]

theorem charListLe_antisymm : ∀ x y : List Char,
    charListLe x y = true → charListLe y x = true → x = y
  | [], [] => by intro _ _; rfl
  | [], _ :: _ => by intro _ h; simp [charListLe] at h
  | _ :: _, [] => by intro h _; simp [charListLe] at h
  | a :: as, b :: bs => by
    intro h1 h2
    rcases lt_trichotomy a b with h | h | h
    · simp [charListLe, h, lt_asymm h] at h2
    · subst h
      simp only [charListLe, lt_irrefl, if_false] at h1 h2
      rw [charListLe_antisymm as bs h1 h2]
    · simp [charListLe, h, lt_asymm h] at h1

theorem charListLe_trans : ∀ x y z : List Char,
    charListLe x y = true → charListLe y z = true → charListLe x z = true
  | [], _, _ => by intro _ _; rfl
  | _ :: _, [], _ => by intro h _; simp [charListLe] at h
  | _ :: _, _ :: _, [] => by intro _ h; simp [charListLe] at h
  | a :: as, b :: bs, c :: cs => by
    intro h1 h2
    rcases lt_trichotomy a b with hab | hab | hab
    · rcases lt_trichotomy b c with hbc | hbc | hbc
      · simp [charListLe, lt_trans hab hbc]
      · subst hbc; simp [charListLe, hab]
      · simp [charListLe, hbc, lt_asymm hbc] at h2
    · subst hab
      rcases lt_trichotomy a c with hac | hac | hac
      · simp [charListLe, hac]
      · subst hac
        simp only [charListLe, lt_irrefl, if_false] at h1 h2 ⊢
        exact charListLe_trans as bs cs h1 h2
      · simp [charListLe, hac, lt_asymm hac] at h2
    · simp [charListLe, hab, lt_asymm hab] at h1

theorem strLe_antisymm {a b : String} (h1 : strLe a b = true) (h2 : strLe b a = true) :
    a = b := by
  have h := charListLe_antisymm a.data b.data h1 h2
  cases a; cases b
  exact congrArg String.mk h

instance : IsTotal String (fun a b => strLe a b = true) :=
  ⟨fun a b => charListLe_total a.data b.data⟩

instance : IsTrans String (fun a b => strLe a b = true) :=
  ⟨fun a b c => charListLe_trans a.data b.data c.data⟩

instance : IsAntisymm String (fun a b => strLe a b = true) :=
  ⟨fun _ _ => strLe_antisymm⟩

/-! ## Properties of the pod scan -/

theorem foldl_scanStep_nodeNames (sc : SolrCloud) :
    ∀ (pods : List Pod) (acc : PodScan),
      (List.foldl (scanStep sc) acc pods).nodeNames = acc.nodeNames ++ pods.map Pod.name
  | [], acc => by simp
  | p :: ps, acc => by
    rw [List.foldl_cons, foldl_scanStep_nodeNames sc ps]
    simp [scanStep]

theorem scanPods_nodeNames (sc : SolrCloud) (pods : List Pod) :
    (scanPods sc pods).nodeNames = pods.map Pod.name := by
  rw [scanPods, foldl_scanStep_nodeNames]
  rfl

theorem divergentVersions_cons (sc : SolrCloud) (p : Pod) (ps : List Pod) :
    divergentVersions sc (p :: ps) =
      (if p.containerStatuses.isEmpty then []
       else if ImageVersion p.firstContainerImage != sc.spec.solrImage.tag then
         [ImageVersion p.firstContainerImage]
       else []) ++ divergentVersions sc ps := by
  simp only [divergentVersions, List.filterMap_cons]
  by_cases he : p.containerStatuses.isEmpty
  · simp [he]
  · by_cases hv : ImageVersion p.firstContainerImage != sc.spec.solrImage.tag
    · simp_all
    · simp_all

theorem foldl_scanStep_otherVersions (sc : SolrCloud) :
    ∀ (pods : List Pod) (acc : PodScan),
      (List.foldl (scanStep sc) acc pods).otherVersions =
        acc.otherVersions ++ divergentVersions sc pods
  | [], acc => by simp [divergentVersions]
  | p :: ps, acc => by
    rw [List.foldl_cons, foldl_scanStep_otherVersions sc ps, divergentVersions_cons]
    by_cases he : p.containerStatuses.isEmpty
    · simp [scanStep, nodeStatusOf, he]
    · by_cases hv : ImageVersion p.firstContainerImage != sc.spec.solrImage.tag
      · simp [scanStep, nodeStatusOf, he, hv]
      · simp [scanStep, nodeStatusOf, he, hv]

theorem scanPods_otherVersions (sc : SolrCloud) (pods : List Pod) :
    (scanPods sc pods).otherVersions = divergentVersions sc pods := by
  rw [scanPods, foldl_scanStep_otherVersions]
  rfl

theorem foldl_scanStep_backup (sc : SolrCloud)
    (hb : sc.spec.backupRestoreVolume.isSome = true) :
    ∀ (pods : List Pod) (acc : PodScan),
      (List.foldl (scanStep sc) acc pods).backupRestoreReadyPods =
        acc.backupRestoreReadyPods + backupMountCount pods
  | [], acc => by simp [backupMountCount]
  | p :: ps, acc => by
    rw [List.foldl_cons, foldl_scanStep_backup sc hb ps]
    simp [scanStep, backupMountCount, hb]
    omega

theorem scanPods_backup (sc : SolrCloud) (pods : List Pod)
    (hb : sc.spec.backupRestoreVolume.isSome = true) :
    (scanPods sc pods).backupRestoreReadyPods = backupMountCount pods := by
  rw [scanPods, foldl_scanStep_backup sc hb]
  simp [PodScan.backupRestoreReadyPods]

theorem foldl_scanStep_map_not_mem (sc : SolrCloud) :
    ∀ (pods : List Pod) (acc : PodScan) (k : String), k ∉ pods.map Pod.name →
      (List.foldl (scanStep sc) acc pods).nodeStatusMap k = acc.nodeStatusMap k
  | [], _, _ => by intro _; rfl
  | p :: ps, acc, k => by
    intro hk
    simp only [List.map_cons, List.mem_cons, not_or] at hk
    rw [List.foldl_cons, foldl_scanStep_map_not_mem sc ps _ k (by simpa using hk.2)]
    simp [scanStep, hk.1]

theorem foldl_scanStep_map_mem (sc : SolrCloud) :
    ∀ (pods : List Pod) (acc : PodScan) (p : Pod),
      (pods.map Pod.name).Nodup → p ∈ pods →
      (List.foldl (scanStep sc) acc pods).nodeStatusMap p.name =
        some (nodeStatusOf sc p)
  | [], _, _ => by intro _ h; simp at h
  | q :: ps, acc, p => by
    intro hnd hp
    simp only [List.map_cons, List.nodup_cons] at hnd
    rcases List.mem_cons.mp hp with hq | hp'
    · subst hq
      rw [List.foldl_cons, foldl_scanStep_map_not_mem sc ps _ p.name hnd.1]
      simp [scanStep]
    · rw [List.foldl_cons]
      exact foldl_scanStep_map_mem sc ps _ p hnd.2 hp'

theorem foldl_scanStep_map_name (sc : SolrCloud) :
    ∀ (pods : List Pod) (acc : PodScan) (k : String) (stt : SolrNodeStatus),
      (∀ stt', acc.nodeStatusMap k = some stt' → stt'.name = k) →
      (List.foldl (scanStep sc) acc pods).nodeStatusMap k = some stt → stt.name = k
  | [], _, _, _ => by intro hacc h; exact hacc _ h
  | p :: ps, acc, k, stt => by
    intro hacc h
    rw [List.foldl_cons] at h
    refine foldl_scanStep_map_name sc ps _ k stt ?_ h
    intro stt' h'
    simp only [scanStep] at h'
    by_cases hk : k == p.name
    · rw [if_pos hk] at h'
      cases h'
      simp [nodeStatusOf]
      exact (eq_of_beq hk).symm
    · rw [if_neg hk] at h'
      exact hacc _ h'

theorem foldl_scanStep_map_isSome_mono (sc : SolrCloud) :
    ∀ (pods : List Pod) (acc : PodScan) (k : String),
      (acc.nodeStatusMap k).isSome = true →
      ((List.foldl (scanStep sc) acc pods).nodeStatusMap k).isSome = true
  | [], _, _ => by intro h; exact h
  | p :: ps, acc, k => by
    intro h
    rw [List.foldl_cons]
    refine foldl_scanStep_map_isSome_mono sc ps _ k ?_
    simp only [scanStep]
    by_cases hk : k == p.name
    · simp [hk]
    · simp only [if_neg hk]
      exact h

theorem foldl_scanStep_map_isSome (sc : SolrCloud) :
    ∀ (pods : List Pod) (acc : PodScan) (k : String), k ∈ pods.map Pod.name →
      ((List.foldl (scanStep sc) acc pods).nodeStatusMap k).isSome = true
  | [], _, _ => by intro h; simp at h
  | p :: ps, acc, k => by
    intro hk
    rw [List.map_cons] at hk
    rcases List.mem_cons.mp hk with hq | hp'
    · subst hq
      rw [List.foldl_cons]
      refine foldl_scanStep_map_isSome_mono sc ps _ _ ?_
      simp [scanStep]
    · rw [List.foldl_cons]
      exact foldl_scanStep_map_isSome sc ps _ k hp'

theorem scanPods_map_mem (sc : SolrCloud) (pods : List Pod) (p : Pod)
    (hnd : (pods.map Pod.name).Nodup) (hp : p ∈ pods) :
    (scanPods sc pods).nodeStatusMap p.name = some (nodeStatusOf sc p) :=
  foldl_scanStep_map_mem sc pods {} p hnd hp

theorem scanPods_map_isSome (sc : SolrCloud) (pods : List Pod) (k : String)
    (hk : k ∈ pods.map Pod.name) :
    ((scanPods sc pods).nodeStatusMap k).isSome = true :=
  foldl_scanStep_map_isSome sc pods {} k hk

theorem scanPods_map_name (sc : SolrCloud) (pods : List Pod) (k : String)
    (stt : SolrNodeStatus) (h : (scanPods sc pods).nodeStatusMap k = some stt) :
    stt.name = k :=
  foldl_scanStep_map_name sc pods {} k stt (fun _ hx => Option.noConfusion hx) h

theorem scanPods_entry_name (sc : SolrCloud) (pods : List Pod) (k : String)
    (hk : k ∈ pods.map Pod.name) :
    (((scanPods sc pods).nodeStatusMap k).getD {}).name = k := by
  have hs := scanPods_map_isSome sc pods k hk
  rcases ho : (scanPods sc pods).nodeStatusMap k with _ | stt
  · rw [ho] at hs; simp at hs
  · have := scanPods_map_name sc pods k stt ho
    simpa using this

theorem compute_solrNodes (sc : SolrCloud) (pods : List Pod) (st : SolrCloudStatus) :
    (reconcileCloudStatusCompute sc pods st).solrNodes =
      (sortStrings (pods.map Pod.name)).map
        (fun n => ((scanPods sc pods).nodeStatusMap n).getD {}) := by
  simp only [reconcileCloudStatusCompute, scanPods_nodeNames]

/-! ## Backup-readiness counting -/

theorem countP_eq_of_nodup (l : List String) (h : l.Nodup) (a : String) :
    l.countP (fun v => v == a) = if l.contains a then 1 else 0 := by
  by_cases hm : a ∈ l
  · rw [if_pos (by exact List.elem_eq_true_of_mem hm)]
    have := List.count_eq_one_of_mem h hm
    simpa [List.count] using this
  · rw [if_neg (by simpa using hm)]
    have := List.count_eq_zero_of_not_mem (l := l) (a := a) hm
    simpa [List.count] using this

theorem backupMountCount_eq_countP :
    ∀ pods : List Pod, (∀ p ∈ pods, p.volumes.Nodup) →
      backupMountCount pods =
        pods.countP (fun p => p.volumes.contains BackupRestoreVolume)
  | [] => by intro _; rfl
  | p :: ps => by
    intro hv
    have hp := hv p (List.mem_cons_self p ps)
    have ih := backupMountCount_eq_countP ps (fun q hq => hv q (List.mem_cons_of_mem _ hq))
    simp only [backupMountCount, List.map_cons, List.sum_cons, List.countP_cons] at ih ⊢
    rw [ih, countP_eq_of_nodup _ hp]
    by_cases hc : p.volumes.contains BackupRestoreVolume
    · simp [hc]
      omega
    · simp [hc]
      omega

/-! ## The claims about the status aggregator (C2, C4, C9) -/

/-- C4: the status aggregator sets `BackupRestoreReady` to true iff the
number of pods whose volume list includes the designated backup volume
equals the desired replica count and that count is non-zero.  (Hypotheses:
a backup volume is configured, the flag starts out false as in a freshly
computed status, and each pod's volume names are unique, as the platform
guarantees.) -/
theorem backupRestoreReady_iff_mounts_match_replicas
    (sc : SolrCloud) (pods : List Pod) (st : SolrCloudStatus)
    (hb : sc.spec.backupRestoreVolume.isSome = true)
    (hst : st.backupRestoreReady = false)
    (hv : ∀ p ∈ pods, p.volumes.Nodup) :
    ((reconcileCloudStatusCompute sc pods st).backupRestoreReady = true ↔
      ((pods.countP (fun p => p.volumes.contains BackupRestoreVolume) : Int) =
          sc.spec.replicas ∧
        0 < pods.countP (fun p => p.volumes.contains BackupRestoreVolume))) := by
  have hcount := backupMountCount_eq_countP pods hv
  have hscan := scanPods_backup sc pods hb
  simp only [reconcileCloudStatusCompute, hscan, hcount, hst]
  split
  · simp_all
  · simp_all

theorem backupRestoreReady_iff_mounts_match_replicas_witness :
    ((({ spec := { replicas := 3, backupRestoreVolume := some "pvc" } } :
          SolrCloud).spec.backupRestoreVolume.isSome = true) ∧
      (({} : SolrCloudStatus).backupRestoreReady = false) ∧
      (∀ p ∈ [({ name := "a", volumes := ["backup-restore"] } : Pod),
              { name := "b", volumes := ["backup-restore"] },
              { name := "c", volumes := ["backup-restore"] }], p.volumes.Nodup)) ∧
    ((reconcileCloudStatusCompute
        { spec := { replicas := 3, backupRestoreVolume := some "pvc" } }
        [{ name := "a", volumes := ["backup-restore"] },
         { name := "b", volumes := ["backup-restore"] },
         { name := "c", volumes := ["backup-restore"] }] {}).backupRestoreReady = true ↔
      (([({ name := "a", volumes := ["backup-restore"] } : Pod),
         { name := "b", volumes := ["backup-restore"] },
         { name := "c", volumes := ["backup-restore"] }].countP
            (fun p => p.volumes.contains BackupRestoreVolume) : Int) =
          ({ spec := { replicas := 3, backupRestoreVolume := some "pvc" } } :
            SolrCloud).spec.replicas ∧
        0 < [({ name := "a", volumes := ["backup-restore"] } : Pod),
             { name := "b", volumes := ["backup-restore"] },
             { name := "c", volumes := ["backup-restore"] }].countP
              (fun p => p.volumes.contains BackupRestoreVolume))) :=
  ⟨⟨by decide, by decide, by decide⟩,
    backupRestoreReady_iff_mounts_match_replicas _ _ _ (by decide) (by decide) (by decide)⟩

/-- C2 (counterexample): with target tag `v2` and the platform listing
`pod-b` (running `v3`) before `pod-a` (running `v1`), the first divergent
version in pod-name-sorted order is `v1`, but the aggregator reports `v3` —
it takes the first divergent version in pod list order, not in sorted
order. -/
theorem versionSkew_sortedOrder_counterexample :
    specFirstDivergentPodNameSorted
        { name := "sc", ns := "d", spec := { solrImage := { tag := "v2" } } }
        [{ name := "pod-b", firstContainerImage := "solr:v3", containerStatuses := [true] },
         { name := "pod-a", firstContainerImage := "solr:v1", containerStatuses := [true] }]
      = some "v1" ∧
    (reconcileCloudStatusCompute
        { name := "sc", ns := "d", spec := { solrImage := { tag := "v2" } } }
        [{ name := "pod-b", firstContainerImage := "solr:v3", containerStatuses := [true] },
         { name := "pod-a", firstContainerImage := "solr:v1", containerStatuses := [true] }]
        {}).version = "v3" ∧
    (reconcileCloudStatusCompute
        { name := "sc", ns := "d", spec := { solrImage := { tag := "v2" } } }
        [{ name := "pod-b", firstContainerImage := "solr:v3", containerStatuses := [true] },
         { name := "pod-a", firstContainerImage := "solr:v1", containerStatuses := [true] }]
        {}).version ≠ "v1" := by
  refine ⟨by decide, by decide, by decide⟩

/-- C2 (amended): when at least one pod's observed running version differs
from the spec's target tag, the aggregator reports the target tag as
`TargetVersion` and, as the current `Version`, the first divergent version
in the order the pods were listed by the platform (not in pod-name-sorted
order). -/
theorem versionSkew_reportsFirstListedDivergent
    (sc : SolrCloud) (pods : List Pod) (st : SolrCloudStatus)
    (v : String) (vs : List String)
    (h : divergentVersions sc pods = v :: vs) :
    (reconcileCloudStatusCompute sc pods st).targetVersion = sc.spec.solrImage.tag ∧
    (reconcileCloudStatusCompute sc pods st).version = v := by
  have hscan := scanPods_otherVersions sc pods
  simp [reconcileCloudStatusCompute, hscan, h]

theorem versionSkew_reportsFirstListedDivergent_witness :
    (divergentVersions
        { name := "sc", ns := "d", spec := { solrImage := { tag := "v2" } } }
        [{ name := "pod-a", firstContainerImage := "solr:v1", containerStatuses := [true] },
         { name := "pod-b", firstContainerImage := "solr:v1", containerStatuses := [true] },
         { name := "pod-c", firstContainerImage := "solr:v2", containerStatuses := [true] }]
      = "v1" :: ["v1"]) ∧
    ((reconcileCloudStatusCompute
        { name := "sc", ns := "d", spec := { solrImage := { tag := "v2" } } }
        [{ name := "pod-a", firstContainerImage := "solr:v1", containerStatuses := [true] },
         { name := "pod-b", firstContainerImage := "solr:v1", containerStatuses := [true] },
         { name := "pod-c", firstContainerImage := "solr:v2", containerStatuses := [true] }]
        {}).targetVersion = "v2" ∧
      (reconcileCloudStatusCompute
        { name := "sc", ns := "d", spec := { solrImage := { tag := "v2" } } }
        [{ name := "pod-a", firstContainerImage := "solr:v1", containerStatuses := [true] },
         { name := "pod-b", firstContainerImage := "solr:v1", containerStatuses := [true] },
         { name := "pod-c", firstContainerImage := "solr:v2", containerStatuses := [true] }]
        {}).version = "v1") :=
  ⟨by decide,
    versionSkew_reportsFirstListedDivergent _ _ _ "v1" ["v1"] (by decide)⟩

/-- C9: the per-node status array is ordered lexicographically by node
name, and for pod lists that are permutations of each other (with the
platform-guaranteed unique pod names) the resulting array is identical —
independent of list-call ordering. -/
theorem solrNodes_sorted_and_order_independent (sc : SolrCloud)
    (pods pods' : List Pod) (st st' : SolrCloudStatus)
    (hnd : (pods.map Pod.name).Nodup) (hperm : pods.Perm pods') :
    List.Sorted (fun a b : SolrNodeStatus => strLe a.name b.name = true)
      (reconcileCloudStatusCompute sc pods st).solrNodes ∧
    (reconcileCloudStatusCompute sc pods' st').solrNodes =
      (reconcileCloudStatusCompute sc pods st).solrNodes := by
  have hsorted : List.Sorted (fun a b => strLe a b = true)
      (sortStrings (pods.map Pod.name)) := List.sorted_insertionSort _ _
  constructor
  · rw [compute_solrNodes]
    show List.Pairwise _ _
    rw [List.pairwise_map]
    refine hsorted.imp_of_mem ?_
    intro a b ha hb hab
    simp only [sortStrings, List.mem_insertionSort] at ha hb
    have ha' := scanPods_entry_name sc pods a ha
    have hb' := scanPods_entry_name sc pods b hb
    rw [ha', hb']
    exact hab
  · have hnames' : List.Perm (pods'.map Pod.name) (pods.map Pod.name) :=
      (hperm.map Pod.name).symm
    have hnd' : (pods'.map Pod.name).Nodup := hnames'.nodup_iff.mpr hnd
    have hsortEq : sortStrings (pods'.map Pod.name) = sortStrings (pods.map Pod.name) := by
      refine List.eq_of_perm_of_sorted ?_ (List.sorted_insertionSort _ _)
        (List.sorted_insertionSort _ _)
      exact ((List.perm_insertionSort _ _).trans hnames').trans
        (List.perm_insertionSort _ _).symm
    rw [compute_solrNodes, compute_solrNodes, hsortEq]
    refine List.map_congr_left ?_
    intro n hn
    simp only [sortStrings, List.mem_insertionSort] at hn
    obtain ⟨p, hp, rfl⟩ := List.mem_map.mp hn
    rw [scanPods_map_mem sc pods p hnd hp,
        scanPods_map_mem sc pods' p hnd' (hperm.mem_iff.mp hp)]

theorem solrNodes_sorted_and_order_independent_witness :
    (([({ name := "pod-b", firstContainerImage := "solr:v1" } : Pod),
       { name := "pod-a", firstContainerImage := "solr:v2" }].map Pod.name).Nodup ∧
      List.Perm
        [({ name := "pod-b", firstContainerImage := "solr:v1" } : Pod),
         { name := "pod-a", firstContainerImage := "solr:v2" }]
        [({ name := "pod-a", firstContainerImage := "solr:v2" } : Pod),
         { name := "pod-b", firstContainerImage := "solr:v1" }]) ∧
    (List.Sorted (fun a b : SolrNodeStatus => strLe a.name b.name = true)
      (reconcileCloudStatusCompute { name := "w", ns := "d", spec := {} }
        [{ name := "pod-b", firstContainerImage := "solr:v1" },
         { name := "pod-a", firstContainerImage := "solr:v2" }] {}).solrNodes ∧
      (reconcileCloudStatusCompute { name := "w", ns := "d", spec := {} }
        [{ name := "pod-a", firstContainerImage := "solr:v2" },
         { name := "pod-b", firstContainerImage := "solr:v1" }] {}).solrNodes =
      (reconcileCloudStatusCompute { name := "w", ns := "d", spec := {} }
        [{ name := "pod-b", firstContainerImage := "solr:v1" },
         { name := "pod-a", firstContainerImage := "solr:v2" }] {}).solrNodes) :=
  ⟨⟨by decide, List.Perm.swap _ _ _⟩,
    solrNodes_sorted_and_order_independent _ _ _ _ _ (by decide)
      (List.Perm.swap _ _ _)⟩

/-! ## The claims about the coordination sub-flow (C3, C5) -/

/-- C3 (counterexample): with both the external connection reference and
the provision request set — violating the exactly-one rule — and the CRD
integration disabled, `reconcileZk` returns no error at all: the external
reference silently takes precedence, contradicting the claim that every
violation of the exactly-one rule yields a bad request. -/
theorem zkExactlyOne_counterexample :
    ((({ spec := { zookeeperRef :=
          { connectionInfo := some { internalConnectionString := "zk:2181" },
            providedZookeeper := some {} } } } :
        SolrCloud).spec.zookeeperRef.connectionInfo.isSome = true) ∧
      (({ spec := { zookeeperRef :=
          { connectionInfo := some { internalConnectionString := "zk:2181" },
            providedZookeeper := some {} } } } :
        SolrCloud).spec.zookeeperRef.providedZookeeper.isSome = true)) ∧
    (reconcileZk {} {}
        { spec := { zookeeperRef :=
            { connectionInfo := some { internalConnectionString := "zk:2181" },
              providedZookeeper := some {} } } } {}).err = none ∧
    (reconcileZk {} {}
        { spec := { zookeeperRef :=
            { connectionInfo := some { internalConnectionString := "zk:2181" },
              providedZookeeper := some {} } } } {}).isBadRequest = false := by
  refine ⟨⟨by decide, by decide⟩, by decide, by decide⟩

/-- C3 (amended): the coordination-dependency step returns a non-retryable
bad request exactly when the external connection reference is absent and
either no provision request is set or provisioning is requested while the
Zookeeper-CRD integration is disabled; when both options are set, the
external reference takes precedence without error.  In every bad-request
case no coordination API call is made and the status is not written. -/
theorem zkBadRequest_iff (cfg : Config) (env : Env) (sc : SolrCloud)
    (img : ContainerImage) :
    ((reconcileZk cfg env sc img).isBadRequest = true ↔
      (sc.spec.zookeeperRef.connectionInfo = none ∧
        (sc.spec.zookeeperRef.providedZookeeper = none ∨
          (sc.spec.zookeeperRef.providedZookeeper.isSome = true ∧
            cfg.useZkCRD = false)))) ∧
    ((sc.spec.zookeeperRef.connectionInfo = none ∧
        (sc.spec.zookeeperRef.providedZookeeper = none ∨
          (sc.spec.zookeeperRef.providedZookeeper.isSome = true ∧
            cfg.useZkCRD = false))) →
      (reconcileZk cfg env sc img).emitted = [] ∧
        (reconcileZk cfg env sc img).write = none) := by
  rcases hci : sc.spec.zookeeperRef.connectionInfo with _ | ci
  · rcases hpz : sc.spec.zookeeperRef.providedZookeeper with _ | pzk
    · constructor
      · simp [reconcileZk, hci, hpz, ZkResult.isBadRequest]
      · intro _
        simp [reconcileZk, hci, hpz]
    · by_cases hcrd : cfg.useZkCRD
      · constructor
        · simp only [reconcileZk, hci, hpz, hcrd]
          rcases hsr : env.zkSetRefErr with _ | e
          · rcases hg : env.getZkCluster with f | _ | e
            · by_cases hcc : env.zkCopyChanged
              · rcases hue : env.zkUpdateErr with _ | e <;>
                  simp [hsr, hg, hcc, hue, ZkResult.isBadRequest, hcrd]
              · simp [hsr, hg, hcc, ZkResult.isBadRequest, hcrd]
            · rcases hce : env.zkCreateErr with _ | e <;>
                simp [hsr, hg, hce, ZkResult.isBadRequest, hcrd]
            · simp [hsr, hg, ZkResult.isBadRequest, hcrd]
          · simp [hsr, ZkResult.isBadRequest, hcrd]
        · intro hcond
          rcases hcond.2 with h | h
          · exact Option.noConfusion h
          · simp [hcrd] at h
      · constructor
        · simp [reconcileZk, hci, hpz, hcrd, ZkResult.isBadRequest]
        · intro _
          simp [reconcileZk, hci, hpz, hcrd]
  · constructor
    · simp [reconcileZk, hci, ZkResult.isBadRequest]
    · intro hcond
      exact Option.noConfusion hcond.1

theorem zkBadRequest_iff_witness :
    ((reconcileZk {} {} {} {}).isBadRequest = true) ∧
    ((reconcileZk {} {} {} {}).emitted = [] ∧
      (reconcileZk {} {} {} {}).write = none) :=
  ⟨((zkBadRequest_iff {} {} {} {}).1).mpr (by exact ⟨rfl, Or.inl rfl⟩),
    (zkBadRequest_iff {} {} {} {}).2 (by exact ⟨rfl, Or.inl rfl⟩)⟩

/-- C5: when a managed coordination cluster is provisioned and already
exists, the derived internal connection string is the comma-join of exactly
one host-port entry per declared replica (the replica count of the
generated descriptor, i.e. of the provision request — not of the observed
cluster), each synthesized from the ordinal-indexed headless-service naming
convention and the live cluster's client port; the external connection
string is the live cluster's reported external endpoint, or unset — with no
error — when the platform has not assigned one. -/
theorem zkProvided_connectionStrings (cfg : Config) (env : Env) (sc : SolrCloud)
    (img : ContainerImage) (pzk : ProvidedZookeeper) (found : FoundZkCluster)
    (hci : sc.spec.zookeeperRef.connectionInfo = none)
    (hpz : sc.spec.zookeeperRef.providedZookeeper = some pzk)
    (hcrd : cfg.useZkCRD = true)
    (hsr : env.zkSetRefErr = none)
    (hget : env.getZkCluster = .ok found)
    (hup : env.zkUpdateErr = none) :
    ∃ entries : List String,
      (reconcileZk cfg env sc img).write =
        some { internalConnectionString := String.intercalate "," entries
               externalConnectionString :=
                 if found.externalClientEndpoint == "" then none
                 else some found.externalClientEndpoint
               chRoot := pzk.chRoot } ∧
      entries.length = (GenerateZookeeperCluster sc pzk).replicas ∧
      (GenerateZookeeperCluster sc pzk).replicas = pzk.replicas ∧
      (∀ i (hi : i < entries.length), entries.get ⟨i, hi⟩ =
        found.name ++ "-" ++ toString i ++ "." ++ found.name ++ "-headless." ++
          found.ns ++ ":" ++ toString found.clientPort) ∧
      (reconcileZk cfg env sc img).err = none := by
  refine ⟨(List.range pzk.replicas).map (fun i =>
      found.name ++ "-" ++ toString i ++ "." ++ found.name ++ "-headless." ++
        found.ns ++ ":" ++ toString found.clientPort), ?_, ?_, rfl, ?_, ?_⟩
  · simp [reconcileZk, hci, hpz, hcrd, hsr, hget, GenerateZookeeperCluster]
  · simp [GenerateZookeeperCluster]
  · intro i hi
    simp only [List.get_eq_getElem, List.getElem_map, List.getElem_range]
  · by_cases hcc : env.zkCopyChanged <;>
      simp [reconcileZk, hci, hpz, hcrd, hsr, hget, hcc, hup]

theorem zkProvided_connectionStrings_witness :
    ((({ spec := { zookeeperRef := { providedZookeeper := some { replicas := 2 } } } } :
        SolrCloud).spec.zookeeperRef.connectionInfo = none) ∧
      (({ spec := { zookeeperRef := { providedZookeeper := some { replicas := 2 } } } } :
        SolrCloud).spec.zookeeperRef.providedZookeeper = some { replicas := 2 }) ∧
      (({ useZkCRD := true } : Config).useZkCRD = true) ∧
      (({ getZkCluster := .ok { name := "zk", ns := "d" } } : Env).zkSetRefErr = none) ∧
      (({ getZkCluster := .ok { name := "zk", ns := "d" } } : Env).getZkCluster =
        .ok { name := "zk", ns := "d" }) ∧
      (({ getZkCluster := .ok { name := "zk", ns := "d" } } : Env).zkUpdateErr = none)) ∧
    (∃ entries : List String,
      (reconcileZk { useZkCRD := true } { getZkCluster := .ok { name := "zk", ns := "d" } }
          { spec := { zookeeperRef := { providedZookeeper := some { replicas := 2 } } } }
          {}).write =
        some { internalConnectionString := String.intercalate "," entries
               externalConnectionString :=
                 if ({ name := "zk", ns := "d" } :
                     FoundZkCluster).externalClientEndpoint == "" then none
                 else some ({ name := "zk", ns := "d" } :
                     FoundZkCluster).externalClientEndpoint
               chRoot := ({ replicas := 2 } : ProvidedZookeeper).chRoot } ∧
      entries.length = (GenerateZookeeperCluster
          { spec := { zookeeperRef := { providedZookeeper := some { replicas := 2 } } } }
          { replicas := 2 }).replicas ∧
      (GenerateZookeeperCluster
          { spec := { zookeeperRef := { providedZookeeper := some { replicas := 2 } } } }
          { replicas := 2 }).replicas = ({ replicas := 2 } : ProvidedZookeeper).replicas ∧
      (∀ i (hi : i < entries.length), entries.get ⟨i, hi⟩ =
        ({ name := "zk", ns := "d" } : FoundZkCluster).name ++ "-" ++ toString i ++ "." ++
          ({ name := "zk", ns := "d" } : FoundZkCluster).name ++ "-headless." ++
          ({ name := "zk", ns := "d" } : FoundZkCluster).ns ++ ":" ++
          toString ({ name := "zk", ns := "d" } : FoundZkCluster).clientPort) ∧
      (reconcileZk { useZkCRD := true } { getZkCluster := .ok { name := "zk", ns := "d" } }
          { spec := { zookeeperRef := { providedZookeeper := some { replicas := 2 } } } }
          {}).err = none) :=
  ⟨⟨rfl, rfl, rfl, rfl, rfl, rfl⟩,
    zkProvided_connectionStrings _ _ _ _ _ _ rfl rfl rfl rfl rfl rfl⟩

/-! ## The claims about the per-node service loop (C6) -/

theorem reconcileNodeService_ok (e : NodeServiceEnv) (n : String)
    (h : e.noErrors) :
    (reconcileNodeService e n).err = none ∧
    Action.getNodeService n ∈ (reconcileNodeService e n).emitted ∧
    (reconcileNodeService e n).ip = nodeServiceIp e := by
  obtain ⟨h1, h2, h3, h4⟩ := h
  rcases hg : e.get with f | _ | er
  · by_cases hcc : e.copyChanged <;>
      simp [reconcileNodeService, nodeServiceIp, h1, h2, h3, hg, hcc]
  · simp [reconcileNodeService, nodeServiceIp, h1, h2, h3, hg]
  · exact absurd hg (h4 er)

theorem nodeLoop_general (env : Env) (sc : SolrCloud) (ext : ExternalAddressability)
    (hext : sc.spec.solrAddressability.external = some ext)
    (huse : ext.useExternalAddress = true) :
    ∀ (names : List String) (b0 : Bool) (m0 : List (String × String)),
      (∀ n ∈ names, (env.nodeEnv n).noErrors) →
      (reconcileNodeServices env sc names b0 m0).err = none ∧
      (∀ n ∈ names, Action.getNodeService n ∈
        (reconcileNodeServices env sc names b0 m0).emitted) ∧
      ((reconcileNodeServices env sc names b0 m0).blocked =
        (b0 || names.any (fun n => nodeServiceIp (env.nodeEnv n) == ""))) ∧
      (∀ x ∈ m0, x ∈ (reconcileNodeServices env sc names b0 m0).hostMap) ∧
      (∀ n ∈ names, nodeServiceIp (env.nodeEnv n) ≠ "" →
        (sc.advertisedNodeHost n, nodeServiceIp (env.nodeEnv n)) ∈
          (reconcileNodeServices env sc names b0 m0).hostMap)
  | [], b0, m0 => by
    intro _
    refine ⟨rfl, ?_, by simp [reconcileNodeServices], ?_, ?_⟩
    · intro n hn; simp at hn
    · intro x hx; simpa [reconcileNodeServices] using hx
    · intro n hn; simp at hn
  | n :: rest, b0, m0 => by
    intro hok
    have hn := hok n (List.mem_cons_self n rest)
    obtain ⟨he, hg, hip⟩ := reconcileNodeService_ok (env.nodeEnv n) n hn
    have hrest := fun b m => nodeLoop_general env sc ext hext huse rest b m
      (fun q hq => hok q (List.mem_cons_of_mem _ hq))
    by_cases hempty : nodeServiceIp (env.nodeEnv n) == ""
    · have hstep : reconcileNodeServices env sc (n :: rest) b0 m0 =
          { emitted := (reconcileNodeService (env.nodeEnv n) n).emitted ++
              (reconcileNodeServices env sc rest true m0).emitted,
            blocked := (reconcileNodeServices env sc rest true m0).blocked,
            hostMap := (reconcileNodeServices env sc rest true m0).hostMap,
            err := (reconcileNodeServices env sc rest true m0).err } := by
        simp [reconcileNodeServices, he, hext, huse, hip, hempty]
      obtain ⟨ih1, ih2, ih3, ih4, ih5⟩ := hrest true m0
      rw [hstep]
      refine ⟨ih1, ?_, ?_, ih4, ?_⟩
      · intro q hq
        rcases List.mem_cons.mp hq with rfl | hq'
        · exact List.mem_append_left _ hg
        · exact List.mem_append_right _ (ih2 q hq')
      · rw [ih3]
        simp [hempty]
      · intro q hq hqne
        rcases List.mem_cons.mp hq with rfl | hq'
        · exact absurd (by simpa using hempty) hqne
        · exact ih5 q hq' hqne
    · have hstep : reconcileNodeServices env sc (n :: rest) b0 m0 =
          { emitted := (reconcileNodeService (env.nodeEnv n) n).emitted ++
              (reconcileNodeServices env sc rest b0
                (m0 ++ [(sc.advertisedNodeHost n, nodeServiceIp (env.nodeEnv n))])).emitted,
            blocked := (reconcileNodeServices env sc rest b0
                (m0 ++ [(sc.advertisedNodeHost n, nodeServiceIp (env.nodeEnv n))])).blocked,
            hostMap := (reconcileNodeServices env sc rest b0
                (m0 ++ [(sc.advertisedNodeHost n, nodeServiceIp (env.nodeEnv n))])).hostMap,
            err := (reconcileNodeServices env sc rest b0
                (m0 ++ [(sc.advertisedNodeHost n, nodeServiceIp (env.nodeEnv n))])).err } := by
        simp [reconcileNodeServices, he, hext, huse, hip, hempty]
      obtain ⟨ih1, ih2, ih3, ih4, ih5⟩ :=
        hrest b0 (m0 ++ [(sc.advertisedNodeHost n, nodeServiceIp (env.nodeEnv n))])
      rw [hstep]
      refine ⟨ih1, ?_, ?_, ?_, ?_⟩
      · intro q hq
        rcases List.mem_cons.mp hq with rfl | hq'
        · exact List.mem_append_left _ hg
        · exact List.mem_append_right _ (ih2 q hq')
      · rw [ih3]
        simp [hempty]
      · intro x hx
        exact ih4 x (List.mem_append_left _ hx)
      · intro q hq hqne
        rcases List.mem_cons.mp hq with rfl | hq'
        · exact ih4 _ (List.mem_append_right _ (by simp))
        · exact ih5 q hq' hqne

/-- C6: with individual addressing enabled and external address advertising
requested, a node whose cluster-internal address has not materialized only
records the defer-workload-set flag: every node in the topology is still
processed (its service is still reconciled), and the resolved addresses of
the other nodes are still collected into the hostname map. -/
theorem nodeServices_noShortCircuit (env : Env) (sc : SolrCloud)
    (ext : ExternalAddressability)
    (hext : sc.spec.solrAddressability.external = some ext)
    (huse : ext.useExternalAddress = true)
    (names : List String)
    (hok : ∀ n ∈ names, (env.nodeEnv n).noErrors) :
    (reconcileNodeServices env sc names false []).err = none ∧
    (∀ n ∈ names, Action.getNodeService n ∈
      (reconcileNodeServices env sc names false []).emitted) ∧
    ((∃ n ∈ names, nodeServiceIp (env.nodeEnv n) = "") →
      (reconcileNodeServices env sc names false []).blocked = true) ∧
    (∀ n ∈ names, nodeServiceIp (env.nodeEnv n) ≠ "" →
      (sc.advertisedNodeHost n, nodeServiceIp (env.nodeEnv n)) ∈
        (reconcileNodeServices env sc names false []).hostMap) := by
  obtain ⟨h1, h2, h3, _, h5⟩ := nodeLoop_general env sc ext hext huse names false [] hok
  refine ⟨h1, h2, ?_, h5⟩
  rintro ⟨n, hn, hempty⟩
  rw [h3]
  simp only [Bool.false_or, List.any_eq_true]
  exact ⟨n, hn, by simpa using hempty⟩

theorem nodeServices_noShortCircuit_witness :
    ((({ spec := { solrAddressability :=
          { external := some { useExternalAddress := true } } } } :
        SolrCloud).spec.solrAddressability.external =
          some { useExternalAddress := true }) ∧
      (({ useExternalAddress := true } : ExternalAddressability).useExternalAddress = true) ∧
      (∀ n ∈ ["", "x"],
        (({ nodeEnv := fun n => { get := .ok { clusterIP := n } } } :
          Env).nodeEnv n).noErrors)) ∧
    ((reconcileNodeServices { nodeEnv := fun n => { get := .ok { clusterIP := n } } }
        { spec := { solrAddressability :=
            { external := some { useExternalAddress := true } } } }
        ["", "x"] false []).err = none ∧
      (∀ n ∈ ["", "x"], Action.getNodeService n ∈
        (reconcileNodeServices { nodeEnv := fun n => { get := .ok { clusterIP := n } } }
          { spec := { solrAddressability :=
              { external := some { useExternalAddress := true } } } }
          ["", "x"] false []).emitted) ∧
      ((∃ n ∈ ["", "x"], nodeServiceIp
          (({ nodeEnv := fun n => { get := .ok { clusterIP := n } } } :
            Env).nodeEnv n) = "") →
        (reconcileNodeServices { nodeEnv := fun n => { get := .ok { clusterIP := n } } }
          { spec := { solrAddressability :=
              { external := some { useExternalAddress := true } } } }
          ["", "x"] false []).blocked = true) ∧
      (∀ n ∈ ["", "x"], nodeServiceIp
          (({ nodeEnv := fun n => { get := .ok { clusterIP := n } } } :
            Env).nodeEnv n) ≠ "" →
        (({ spec := { solrAddressability :=
              { external := some { useExternalAddress := true } } } } :
            SolrCloud).advertisedNodeHost n,
          nodeServiceIp (({ nodeEnv := fun n => { get := .ok { clusterIP := n } } } :
            Env).nodeEnv n)) ∈
          (reconcileNodeServices { nodeEnv := fun n => { get := .ok { clusterIP := n } } }
            { spec := { solrAddressability :=
                { external := some { useExternalAddress := true } } } }
            ["", "x"] false []).hostMap)) :=
  ⟨⟨rfl, rfl, by
      intro n hn
      exact ⟨rfl, rfl, rfl, fun er h => by simp at h⟩⟩,
    nodeServices_noShortCircuit _ _ _ rfl rfl _ (by
      intro n hn
      exact ⟨rfl, rfl, rfl, fun er h => by simp at h⟩)⟩

/-! ## Per-step facts about the pass: emitted actions -/

theorem RM_bind_apply {α β : Type} (m : RM α) (f : α → RM β) (s : RState) :
    (m >>= f) s = match m s with
      | (s', Except.ok a) => f a s'
      | (s', Except.error e) => (s', Except.error e) := rfl

theorem fetchPure_emitted (env : Env) (st : SolrCloudStatus) :
    (fetchPure env st).emitted = [Action.getInstance] := by
  cases h : env.getInstance <;> simp [fetchPure, h]

theorem defaultsPure_emitted (env : Env) (st : SolrCloudStatus) :
    ∀ a ∈ (defaultsPure env st).emitted, NotSS a := by
  intro a ha
  unfold defaultsPure at ha
  repeat' split at ha
  all_goals simp_all [NotSS]

theorem reconcileZk_emitted_shape (cfg : Config) (env : Env) (sc : SolrCloud)
    (img : ContainerImage) :
    ∀ a ∈ (reconcileZk cfg env sc img).emitted, NotSS a := by
  intro a ha
  unfold reconcileZk at ha
  repeat' split at ha
  all_goals simp_all [NotSS]
  all_goals rcases ha with ha | ha <;> simp_all

theorem commonServicePure_emitted (env : Env) (st : SolrCloudStatus) :
    ∀ a ∈ (commonServicePure env st).emitted, NotSS a := by
  intro a ha
  unfold commonServicePure at ha
  repeat' split at ha
  all_goals simp_all [NotSS]
  all_goals rcases ha with ha | ha <;> simp_all

theorem reconcileNodeService_emitted (e : NodeServiceEnv) (n : String) :
    ∀ a ∈ (reconcileNodeService e n).emitted, NotSS a := by
  intro a ha
  unfold reconcileNodeService at ha
  repeat' split at ha
  all_goals simp_all [NotSS]
  all_goals rcases ha with ha | ha <;> simp_all

theorem reconcileNodeServices_emitted (env : Env) (sc : SolrCloud) :
    ∀ (names : List String) (b : Bool) (m : List (String × String)),
      ∀ a ∈ (reconcileNodeServices env sc names b m).emitted, NotSS a
  | [], _, _ => by intro a ha; simp [reconcileNodeServices] at ha
  | n :: rest, b, m => by
    intro a ha
    unfold reconcileNodeServices at ha
    rcases her : (reconcileNodeService (env.nodeEnv n) n).err with _ | e
    · simp only [her] at ha
      rcases List.mem_append.mp ha with h | h
      · exact reconcileNodeService_emitted _ n a h
      · exact reconcileNodeServices_emitted env sc rest _ _ a h
    · simp only [her] at ha
      exact reconcileNodeService_emitted _ n a ha

theorem nodeServicesPure_emitted (env : Env) (sc : SolrCloud) (st : SolrCloudStatus) :
    ∀ a ∈ (nodeServicesPure env sc st).emitted, NotSS a := by
  intro a ha
  unfold nodeServicesPure at ha
  by_cases hind : sc.usesIndividualNodeServices
  · rw [if_pos hind] at ha
    rcases her : (reconcileNodeServices env sc sc.getAllSolrNodeNames false []).err
        with _ | e <;>
      simp only [her] at ha <;>
      exact reconcileNodeServices_emitted env sc _ _ _ a ha
  · rw [if_neg hind] at ha
    simp at ha

theorem headlessPure_emitted (env : Env) (sc : SolrCloud) (st : SolrCloudStatus) :
    ∀ a ∈ (headlessPure env sc st).emitted, NotSS a := by
  intro a ha
  unfold headlessPure at ha
  repeat' split at ha
  all_goals simp_all [NotSS]
  all_goals rcases ha with ha | ha <;> simp_all

theorem configMapPure_emitted (env : Env) (st : SolrCloudStatus) :
    ∀ a ∈ (configMapPure env st).emitted, NotSS a := by
  intro a ha
  unfold configMapPure at ha
  repeat' split at ha
  all_goals simp_all [NotSS]
  all_goals rcases ha with ha | ha <;> simp_all

theorem cloudStatusPure_emitted (env : Env) (sc : SolrCloud) (st : SolrCloudStatus) :
    ∀ a ∈ (cloudStatusPure env sc st).emitted, NotSS a := by
  intro a ha
  unfold cloudStatusPure at ha
  repeat' split at ha
  all_goals simp_all [NotSS]

theorem ingressPure_emitted (env : Env) (sc : SolrCloud) (st : SolrCloudStatus) :
    ∀ a ∈ (ingressPure env sc st).emitted, NotSS a := by
  intro a ha
  unfold ingressPure at ha
  repeat' split at ha
  all_goals simp_all [NotSS]
  all_goals rcases ha with ha | ha <;> simp_all

theorem persistPure_emitted (env : Env) (sc : SolrCloud) (st : SolrCloudStatus) :
    ∀ a ∈ (persistPure env sc st).emitted, NotSS a := by
  intro a ha
  unfold persistPure at ha
  repeat' split at ha
  all_goals simp_all [NotSS]

/-! ## Per-step facts about the pass: no propagated failure -/

theorem fetchPure_noFail (env : Env) (h : ∀ e, env.getInstance ≠ .err e) :
    ∀ (st : SolrCloudStatus) (ex : ReconcileError),
      (fetchPure env st).out ≠ Except.error (Exit.fail ex) := by
  intro st ex
  rcases hg : env.getInstance with sc | _ | e
  · simp [fetchPure, hg]
  · simp [fetchPure, hg]
  · exact absurd hg (h e)

theorem defaultsPure_noFail (env : Env) (h : env.updateInstanceErr = none) :
    ∀ (st : SolrCloudStatus) (ex : ReconcileError),
      (defaultsPure env st).out ≠ Except.error (Exit.fail ex) := by
  intro st ex
  by_cases hc : env.withDefaultsChanged <;> simp [defaultsPure, hc, h]

theorem reconcileZk_ok (cfg : Config) (env : Env) (sc : SolrCloud) (img : ContainerImage)
    (hzk : ZkRefOk cfg sc) (hsr : env.zkSetRefErr = none)
    (hg : ∀ e, env.getZkCluster ≠ .err e) (hc : env.zkCreateErr = none)
    (hu : env.zkUpdateErr = none) :
    (reconcileZk cfg env sc img).err = none := by
  rcases hci : sc.spec.zookeeperRef.connectionInfo with _ | ci
  · rcases hpz : sc.spec.zookeeperRef.providedZookeeper with _ | pzk
    · rcases hzk with h | ⟨h, _⟩
      · rw [hci] at h; simp at h
      · rw [hpz] at h; simp at h
    · have hcrd : cfg.useZkCRD = true := by
        rcases hzk with h | ⟨_, h⟩
        · rw [hci] at h; simp at h
        · exact h
      rcases hgc : env.getZkCluster with f | _ | e
      · by_cases hcc : env.zkCopyChanged <;>
          simp [reconcileZk, hci, hpz, hcrd, hsr, hgc, hcc, hu]
      · simp [reconcileZk, hci, hpz, hcrd, hsr, hgc, hc]
      · exact absurd hgc (hg e)
  · simp [reconcileZk, hci]

theorem zkPure_noFail (cfg : Config) (env : Env) (sc : SolrCloud)
    (hzk : ZkRefOk cfg sc) (hsr : env.zkSetRefErr = none)
    (hg : ∀ e, env.getZkCluster ≠ .err e) (hc : env.zkCreateErr = none)
    (hu : env.zkUpdateErr = none) :
    ∀ (st : SolrCloudStatus) (ex : ReconcileError),
      (zkPure cfg env sc st).out ≠ Except.error (Exit.fail ex) := by
  intro st ex
  have := reconcileZk_ok cfg env sc sc.spec.busyBoxImage hzk hsr hg hc hu
  simp [zkPure, this]

theorem commonServicePure_noFail (env : Env) (hsr : env.commonSetRefErr = none)
    (hg : ∀ e, env.getCommonService ≠ .err e) :
    ∀ (st : SolrCloudStatus) (ex : ReconcileError),
      (commonServicePure env st).out ≠ Except.error (Exit.fail ex) := by
  intro st ex
  rcases hgc : env.getCommonService with u | _ | e
  · by_cases hcc : env.commonCopyChanged <;> simp [commonServicePure, hsr, hgc, hcc]
  · simp [commonServicePure, hsr, hgc]
  · exact absurd hgc (hg e)

theorem reconcileNodeServices_err_none (env : Env) (sc : SolrCloud) :
    ∀ (names : List String) (b : Bool) (m : List (String × String)),
      (∀ n ∈ names, (env.nodeEnv n).noErrors) →
      (reconcileNodeServices env sc names b m).err = none
  | [], _, _ => by intro _; rfl
  | n :: rest, b, m => by
    intro hok
    have he := (reconcileNodeService_ok (env.nodeEnv n) n
      (hok n (List.mem_cons_self n rest))).1
    unfold reconcileNodeServices
    simp only [he]
    exact reconcileNodeServices_err_none env sc rest _ _
      (fun q hq => hok q (List.mem_cons_of_mem _ hq))

theorem nodeServicesPure_noFail (env : Env) (sc : SolrCloud)
    (hok : ∀ n, (env.nodeEnv n).noErrors) :
    ∀ (st : SolrCloudStatus) (ex : ReconcileError),
      (nodeServicesPure env sc st).out ≠ Except.error (Exit.fail ex) := by
  intro st ex
  unfold nodeServicesPure
  by_cases hind : sc.usesIndividualNodeServices
  · rw [if_pos hind]
    have := reconcileNodeServices_err_none env sc sc.getAllSolrNodeNames false []
      (fun n _ => hok n)
    simp [this]
  · rw [if_neg hind]
    simp

theorem headlessPure_noFail (env : Env) (sc : SolrCloud)
    (hsr : env.headlessSetRefErr = none) (hg : ∀ e, env.getHeadless ≠ .err e)
    (hc : env.headlessCreateErr = none) (hu : env.headlessUpdateErr = none) :
    ∀ (st : SolrCloudStatus) (ex : ReconcileError),
      (headlessPure env sc st).out ≠ Except.error (Exit.fail ex) := by
  intro st ex
  unfold headlessPure
  by_cases hh : sc.usesHeadlessService
  · rw [if_pos hh]
    rcases hgc : env.getHeadless with u | _ | e
    · by_cases hcc : env.headlessCopyChanged <;> simp [hsr, hgc, hcc, hu]
    · simp [hsr, hgc, hc]
    · exact absurd hgc (hg e)
  · rw [if_neg hh]
    simp

theorem configMapPure_noFail (env : Env)
    (hsr : env.configMapSetRefErr = none) (hg : ∀ e, env.getConfigMap ≠ .err e)
    (hc : env.configMapCreateErr = none) (hu : env.configMapUpdateErr = none) :
    ∀ (st : SolrCloudStatus) (ex : ReconcileError),
      (configMapPure env st).out ≠ Except.error (Exit.fail ex) := by
  intro st ex
  rcases hgc : env.getConfigMap with u | _ | e
  · by_cases hcc : env.configMapCopyChanged <;> simp [configMapPure, hsr, hgc, hcc, hu]
  · simp [configMapPure, hsr, hgc, hc]
  · exact absurd hgc (hg e)

theorem statefulSetPure_noFail (env : Env) (b : Bool)
    (hsr : env.ssSetRefErr = none) (hg : ∀ e, env.getStatefulSet ≠ .err e)
    (hc : env.ssCreateErr = none) (hu : env.ssUpdateErr = none) :
    ∀ (st : SolrCloudStatus) (ex : ReconcileError),
      (statefulSetPure env b st).out ≠ Except.error (Exit.fail ex) := by
  intro st ex
  unfold statefulSetPure
  by_cases hb : (b || !strContainsChar st.zkConnectionString ':') = true
  · simp [hb]
  · rw [if_neg (by simpa using hb)]
    rcases hgs : env.getStatefulSet with f | _ | e
    · by_cases hcc : env.ssCopyChanged <;> simp [hsr, hgs, hcc, hu]
    · simp [hsr, hgs, hc]
    · exact absurd hgs (hg e)

theorem cloudStatusPure_noFail (env : Env) (sc : SolrCloud)
    (hl : ∀ e, env.listPods ≠ .error e) :
    ∀ (st : SolrCloudStatus) (ex : ReconcileError),
      (cloudStatusPure env sc st).out ≠ Except.error (Exit.fail ex) := by
  intro st ex
  rcases hp : env.listPods with e | pods
  · exact absurd hp (hl e)
  · simp [cloudStatusPure, hp]

theorem ingressPure_noFail (env : Env) (sc : SolrCloud)
    (hsr : env.ingressSetRefErr = none) (hg : ∀ e, env.getIngress ≠ .err e)
    (hc : env.ingressCreateErr = none) (hu : env.ingressUpdateErr = none) :
    ∀ (st : SolrCloudStatus) (ex : ReconcileError),
      (ingressPure env sc st).out ≠ Except.error (Exit.fail ex) := by
  intro st ex
  unfold ingressPure
  rcases hx : sc.spec.solrAddressability.external with _ | ext
  · simp
  · dsimp only
    by_cases hm : ext.method = ExternalMethod.ingress
    · rw [if_pos hm]
      rcases hgi : env.getIngress with u | _ | e
      · by_cases hcc : env.ingressCopyChanged <;> simp [hsr, hgi, hcc, hu]
      · simp [hsr, hgi, hc]
      · exact absurd hgi (hg e)
    · rw [if_neg hm]
      simp

theorem persistPure_noFail (env : Env) (sc : SolrCloud)
    (hs : env.statusUpdateErr = none) :
    ∀ (st : SolrCloudStatus) (ex : ReconcileError),
      (persistPure env sc st).out ≠ Except.error (Exit.fail ex) := by
  intro st ex
  by_cases h : st = sc.status <;> simp [persistPure, h, hs]

/-! ## Composing the invariants through the pass -/

theorem TraceAllU_bind {α β : Type} {m : RM α} {f : α → RM β}
    (hm : TraceAllU m) (hf : ∀ a, TraceAllU (f a)) : TraceAllU (m >>= f) := by
  intro s hs a ha
  rw [RM_bind_apply] at ha
  rcases hms : m s with ⟨s', r⟩
  rw [hms] at ha
  have hs' : ∀ b ∈ s'.trace, NotSS b := by
    intro b hb
    have := hm s hs b
    rw [hms] at this
    exact this hb
  rcases r with e | v
  · exact hs' a ha
  · exact hf v s' hs' a ha

theorem TraceAllU_bind_C {α β : Type} {m : RM α} {f : α → RM β}
    (hm : TraceAllU m) (hf : ∀ a, TraceAllC (f a)) : TraceAllC (m >>= f) := by
  intro s hs hc a ha
  rw [RM_bind_apply] at ha hc
  rcases hms : m s with ⟨s', r⟩
  rw [hms] at ha hc
  have hs' : ∀ b ∈ s'.trace, NotSS b := by
    intro b hb
    have := hm s hs b
    rw [hms] at this
    exact this hb
  rcases r with e | v
  · exact hs' a ha
  · exact hf v s' hs' hc a ha

theorem ZkPres_bind {α β : Type} {m : RM α} {f : α → RM β}
    (hm : ZkPres m) (hf : ∀ a, ZkPres (f a)) : ZkPres (m >>= f) := by
  intro s
  rw [RM_bind_apply]
  rcases hms : m s with ⟨s', r⟩
  have h1 : s'.status.zookeeperConnectionInfo = s.status.zookeeperConnectionInfo := by
    have := hm s
    rw [hms] at this
    exact this
  rcases r with e | v
  · exact h1
  · rw [hf v s']
    exact h1

theorem NoFailRM_bind {α β : Type} {m : RM α} {f : α → RM β}
    (hm : NoFailRM m) (hf : ∀ a, NoFailRM (f a)) : NoFailRM (m >>= f) := by
  intro s e
  rw [RM_bind_apply]
  rcases hms : m s with ⟨s', r⟩
  rcases r with e' | v
  · have := hm s e
    rw [hms] at this
    simpa using this
  · exact hf v s' e

theorem NoFailRM_bind_produced {α β : Type} {m : RM α} {f : α → RM β}
    (hm : NoFailRM m)
    (hf : ∀ a, (∃ s s', m s = (s', Except.ok a)) → NoFailRM (f a)) :
    NoFailRM (m >>= f) := by
  intro s e
  rw [RM_bind_apply]
  rcases hms : m s with ⟨s', r⟩
  rcases r with e' | v
  · have := hm s e
    rw [hms] at this
    simpa using this
  · exact hf v ⟨s, s', hms⟩ s' e

theorem runStep_TraceAllU {α : Type} (f : SolrCloudStatus → StepRes α)
    (hf : ∀ st a, a ∈ (f st).emitted → NotSS a) : TraceAllU (runStep f) := by
  intro s hs a ha
  simp only [runStep] at ha
  rcases List.mem_append.mp ha with h | h
  · exact hs a h
  · exact hf _ a h

theorem runStep_ZkPres {α : Type} (f : SolrCloudStatus → StepRes α)
    (hf : ∀ st, ((f st).status).zookeeperConnectionInfo = st.zookeeperConnectionInfo) :
    ZkPres (runStep f) := by
  intro s
  simp only [runStep]
  exact hf s.status

theorem runStep_NoFail {α : Type} (f : SolrCloudStatus → StepRes α)
    (hf : ∀ st e, (f st).out ≠ Except.error (Exit.fail e)) : NoFailRM (runStep f) :=
  fun s e => hf s.status e

/-! ## Facts about the final steps (`reconcileTail`) and the whole pass -/

theorem statefulSetPure_status_zk (env : Env) (b : Bool) (st : SolrCloudStatus) :
    ((statefulSetPure env b st).status).zookeeperConnectionInfo =
      st.zookeeperConnectionInfo := by
  unfold statefulSetPure
  repeat' split
  all_goals dsimp only
  all_goals (first | rfl | (split <;> simp))

theorem cloudStatusPure_status_zk (env : Env) (sc : SolrCloud) (st : SolrCloudStatus) :
    ((cloudStatusPure env sc st).status).zookeeperConnectionInfo =
      st.zookeeperConnectionInfo := by
  rcases hp : env.listPods with e | pods <;>
    simp [cloudStatusPure, hp, reconcileCloudStatusCompute]

theorem ingressPure_status (env : Env) (sc : SolrCloud) (st : SolrCloudStatus) :
    (ingressPure env sc st).status = st := by
  unfold ingressPure
  repeat' split
  all_goals rfl

theorem persistPure_status (env : Env) (sc : SolrCloud) (st : SolrCloudStatus) :
    (persistPure env sc st).status = st := by
  unfold persistPure
  repeat' split
  all_goals rfl

theorem statefulSetPure_blockedEq (env : Env) (b : Bool) (st : SolrCloudStatus)
    (hnc : strContainsChar st.zkConnectionString ':' = false) :
    statefulSetPure env b st = ⟨[], st, Except.ok ()⟩ := by
  simp [statefulSetPure, hnc]

theorem reconcileTail_ZkPres (env : Env) (sc : SolrCloud) (blocked : Bool) :
    ZkPres (reconcileTail env sc blocked) := by
  unfold reconcileTail
  refine ZkPres_bind (runStep_ZkPres _ (statefulSetPure_status_zk env blocked))
    (fun _ => ?_)
  refine ZkPres_bind (runStep_ZkPres _ (cloudStatusPure_status_zk env sc)) (fun _ => ?_)
  refine ZkPres_bind (runStep_ZkPres _ (fun st => by rw [ingressPure_status]))
    (fun _ => ?_)
  exact runStep_ZkPres _ (fun st => by rw [persistPure_status])

theorem reconcileTail_TraceAllC (env : Env) (sc : SolrCloud) (blocked : Bool) :
    TraceAllC (reconcileTail env sc blocked) := by
  intro s hs hc a ha
  have hzk := reconcileTail_ZkPres env sc blocked s
  have hnc : strContainsChar s.status.zkConnectionString ':' = false := by
    unfold SolrCloudStatus.zkConnectionString at hc ⊢
    rw [hzk] at hc
    exact hc
  have htail3 : TraceAllU (runStep (cloudStatusPure env sc) >>= fun _ =>
      runStep (ingressPure env sc) >>= fun _ => runStep (persistPure env sc)) := by
    refine TraceAllU_bind (runStep_TraceAllU _ (fun st => cloudStatusPure_emitted env sc st))
      (fun _ => ?_)
    refine TraceAllU_bind (runStep_TraceAllU _ (fun st => ingressPure_emitted env sc st))
      (fun _ => ?_)
    exact runStep_TraceAllU _ (fun st => persistPure_emitted env sc st)
  unfold reconcileTail at ha
  rw [RM_bind_apply] at ha
  rw [show runStep (statefulSetPure env blocked) s =
      ({ trace := s.trace ++ [], status := s.status }, Except.ok ()) from by
    simp only [runStep, statefulSetPure_blockedEq env blocked s.status hnc]] at ha
  refine htail3 { trace := s.trace ++ [], status := s.status } ?_ a ha
  intro b hb
  rw [List.append_nil] at hb
  exact hs b hb

theorem reconcileTail_NoFail (env : Env) (sc : SolrCloud) (blocked : Bool)
    (hsr : env.ssSetRefErr = none) (hgs : ∀ e, env.getStatefulSet ≠ .err e)
    (hcs : env.ssCreateErr = none) (hus : env.ssUpdateErr = none)
    (hl : ∀ e, env.listPods ≠ .error e)
    (hsi : env.ingressSetRefErr = none) (hgi : ∀ e, env.getIngress ≠ .err e)
    (hci : env.ingressCreateErr = none) (hui : env.ingressUpdateErr = none)
    (hsu : env.statusUpdateErr = none) :
    NoFailRM (reconcileTail env sc blocked) := by
  unfold reconcileTail
  refine NoFailRM_bind (runStep_NoFail _ (statefulSetPure_noFail env blocked hsr hgs hcs hus))
    (fun _ => ?_)
  refine NoFailRM_bind (runStep_NoFail _ (cloudStatusPure_noFail env sc hl)) (fun _ => ?_)
  refine NoFailRM_bind (runStep_NoFail _ (ingressPure_noFail env sc hsi hgi hci hui))
    (fun _ => ?_)
  exact runStep_NoFail _ (persistPure_noFail env sc hsu)

theorem reconcileMain_TraceAllC (cfg : Config) (env : Env) :
    TraceAllC (reconcileMain cfg env) := by
  unfold reconcileMain
  refine TraceAllU_bind_C (runStep_TraceAllU _ (fun st a ha => by
    rw [fetchPure_emitted] at ha
    rcases List.mem_singleton.mp ha with rfl
    exact ⟨by simp, by simp⟩)) (fun sc => ?_)
  refine TraceAllU_bind_C (runStep_TraceAllU _ (fun st => defaultsPure_emitted env st))
    (fun _ => ?_)
  refine TraceAllU_bind_C (runStep_TraceAllU _ (fun st a ha =>
    reconcileZk_emitted_shape cfg env sc sc.spec.busyBoxImage a (by
      simpa [zkPure] using ha))) (fun _ => ?_)
  refine TraceAllU_bind_C (runStep_TraceAllU _ (fun st => commonServicePure_emitted env st))
    (fun _ => ?_)
  refine TraceAllU_bind_C (runStep_TraceAllU _ (fun st => nodeServicesPure_emitted env sc st))
    (fun blocked => ?_)
  refine TraceAllU_bind_C (runStep_TraceAllU _ (fun st => headlessPure_emitted env sc st))
    (fun _ => ?_)
  refine TraceAllU_bind_C (runStep_TraceAllU _ (fun st => configMapPure_emitted env st))
    (fun _ => ?_)
  exact reconcileTail_TraceAllC env sc blocked

theorem fetchPure_ok (env : Env) (st : SolrCloudStatus) (sc : SolrCloud)
    (h : (fetchPure env st).out = Except.ok sc) : env.getInstance = .ok sc := by
  rcases hg : env.getInstance with i | _ | e <;> simp [fetchPure, hg] at h
  rw [h]

theorem reconcileMain_NoFail (cfg : Config) (env : Env)
    (hne : Env.noErrors env)
    (hzk : ∀ sc, env.getInstance = .ok sc → ZkRefOk cfg sc) :
    NoFailRM (reconcileMain cfg env) := by
  obtain ⟨h1, h2, h3, h4, h5, h6, h7, h8, h9, h10, h11, h12, h13, h14, h15, h16,
    h17, h18, h19, h20, h21, h22, h23, h24, h25, h26, h27⟩ := hne
  unfold reconcileMain
  refine NoFailRM_bind_produced (runStep_NoFail _ (fetchPure_noFail env h1))
    (fun sc hsc => ?_)
  have hzksc : ZkRefOk cfg sc := by
    obtain ⟨s0, s1, hrun⟩ := hsc
    have hout : (fetchPure env s0.status).out = Except.ok sc := by
      have := congrArg Prod.snd hrun
      simpa [runStep] using this
    exact hzk sc (fetchPure_ok env _ sc hout)
  refine NoFailRM_bind (runStep_NoFail _ (defaultsPure_noFail env h2)) (fun _ => ?_)
  refine NoFailRM_bind (runStep_NoFail _ (zkPure_noFail cfg env sc hzksc h3 h4 h5 h6))
    (fun _ => ?_)
  refine NoFailRM_bind (runStep_NoFail _ (commonServicePure_noFail env h7 h8)) (fun _ => ?_)
  refine NoFailRM_bind (runStep_NoFail _ (nodeServicesPure_noFail env sc h9))
    (fun blocked => ?_)
  refine NoFailRM_bind (runStep_NoFail _ (headlessPure_noFail env sc h10 h11 h12 h13))
    (fun _ => ?_)
  refine NoFailRM_bind (runStep_NoFail _ (configMapPure_noFail env h14 h15 h16 h17))
    (fun _ => ?_)
  exact reconcileTail_NoFail env sc blocked h18 h19 h20 h21 h22 h23 h24 h25 h26 h27

/-! ## The claims about the whole pass (C1, C7) and its final step (C8) -/

/-- C1: in every pass whose computed status has no host-port separator in
its coordination connection string, the replicated workload set is neither
created nor updated, and this deferral causes no error: when no API call
fails and the coordination reference is well-formed, the pass still returns
success. -/
theorem deferredWorkloadSet_whenNoHostPort (cfg : Config) (env : Env)
    (h : strContainsChar (Reconcile cfg env).status.zkConnectionString ':' = false) :
    Action.createStatefulSet ∉ (Reconcile cfg env).trace ∧
    Action.updateStatefulSet ∉ (Reconcile cfg env).trace ∧
    (Env.noErrors env → (∀ sc, env.getInstance = .ok sc → ZkRefOk cfg sc) →
      ∃ b, (Reconcile cfg env).result = Except.ok b) := by
  have htr := reconcileMain_TraceAllC cfg env
  have hnfm := fun hne hzk => reconcileMain_NoFail cfg env hne hzk
  rcases hm : reconcileMain cfg env {} with ⟨s, r⟩
  have htrace : (Reconcile cfg env).trace = s.trace := by
    unfold Reconcile
    rw [hm]
    rcases r with ex | u
    · rcases ex with b | e <;> rfl
    · rfl
  have hstatus : (Reconcile cfg env).status = s.status := by
    unfold Reconcile
    rw [hm]
    rcases r with ex | u
    · rcases ex with b | e <;> rfl
    · rfl
  rw [hstatus] at h
  have hall : ∀ a ∈ s.trace, NotSS a := by
    have hcond : strContainsChar
        (((reconcileMain cfg env) {}).1.status).zkConnectionString ':' = false := by
      rw [hm]
      exact h
    have := htr {} (by intro a ha; simp at ha) hcond
    intro a ha
    have h2 := this a
    rw [hm] at h2
    exact h2 ha
  refine ⟨?_, ?_, ?_⟩
  · rw [htrace]
    intro hmem
    exact (hall _ hmem).1 rfl
  · rw [htrace]
    intro hmem
    exact (hall _ hmem).2 rfl
  · intro hne hzk
    have hnf := hnfm hne hzk {}
    rw [hm] at hnf
    unfold Reconcile
    rw [hm]
    rcases r with ex | u
    · rcases ex with b | e
      · exact ⟨b, rfl⟩
      · exact absurd rfl (hnf e)
    · exact ⟨false, rfl⟩

theorem deferredWorkloadSet_whenNoHostPort_witness :
    (strContainsChar (Reconcile {}
        { getInstance := .ok { spec := { zookeeperRef :=
            { connectionInfo := some { internalConnectionString := "zkhost" } } } } }
      ).status.zkConnectionString ':' = false) ∧
    (Action.createStatefulSet ∉ (Reconcile {}
        { getInstance := .ok { spec := { zookeeperRef :=
            { connectionInfo := some { internalConnectionString := "zkhost" } } } } }).trace ∧
     Action.updateStatefulSet ∉ (Reconcile {}
        { getInstance := .ok { spec := { zookeeperRef :=
            { connectionInfo := some { internalConnectionString := "zkhost" } } } } }).trace ∧
     (Env.noErrors { getInstance := .ok { spec := { zookeeperRef :=
            { connectionInfo := some { internalConnectionString := "zkhost" } } } } } →
      (∀ sc, ({ getInstance := .ok { spec := { zookeeperRef :=
            { connectionInfo := some { internalConnectionString := "zkhost" } } } } } :
          Env).getInstance = .ok sc → ZkRefOk {} sc) →
      ∃ b, (Reconcile {}
        { getInstance := .ok { spec := { zookeeperRef :=
            { connectionInfo := some { internalConnectionString := "zkhost" } } } } }
        ).result = Except.ok b)) :=
  ⟨by decide, deferredWorkloadSet_whenNoHostPort _ _ (by decide)⟩

/-- C7: when fetching the root object reports not-found, the pass succeeds
with no requeue having issued no call beyond the fetch; when the fetch
fails for any other reason, that error is propagated as a retryable
failure, again with no further action. -/
theorem fetch_absent_succeeds_error_propagates (cfg : Config) (env : Env) :
    (env.getInstance = .notFound →
      Reconcile cfg env = ⟨[.getInstance], .ok false, {}⟩) ∧
    (∀ e, env.getInstance = .err e →
      Reconcile cfg env = ⟨[.getInstance], .error (.api e), {}⟩) := by
  constructor
  · intro h
    simp [Reconcile, reconcileMain, RM_bind_apply, runStep, fetchPure, h]
  · intro e h
    simp [Reconcile, reconcileMain, RM_bind_apply, runStep, fetchPure, h]

theorem fetch_absent_succeeds_error_propagates_witness :
    (({} : Env).getInstance = .notFound) ∧
    Reconcile {} {} = ⟨[Action.getInstance], Except.ok false, {}⟩ :=
  ⟨rfl, (fetch_absent_succeeds_error_propagates {} {}).1 rfl⟩

/-- C8: the final status step writes the status sub-resource iff the
computed status differs from the stored status under structural (deep)
equality — for any state in which that step runs, the write action is
issued exactly when they differ, and the step itself leaves the computed
status unchanged. -/
theorem statusPersist_iff_changed (env : Env) (sc : SolrCloud) (st : SolrCloudStatus) :
    ((persistPure env sc st).emitted =
      if st = sc.status then [] else [Action.updateStatus]) ∧
    (persistPure env sc st).status = st := by
  by_cases h : st = sc.status <;> simp [persistPure, h]

/-! ## The claim about the exporter deployment generator (C10) -/

/-- C10: the exporter deployment generator is not side-effect free on its
input: when the exporter's custom pod options are nil, it replaces them
with a pointer to an empty `PodOptions` value on the passed-in exporter,
leaving every other field unchanged — so the returned exporter differs
from the input. -/
theorem exporterGenerator_initializes_podOptions (e : SolrPrometheusExporter)
    (ci : SolrConnectionInfo)
    (h : e.spec.customPrometheusKubeOptions.podOptions = none) :
    (GenerateSolrPrometheusExporterDeployment e ci).2 =
      { e with spec := { e.spec with customPrometheusKubeOptions :=
          { e.spec.customPrometheusKubeOptions with podOptions := some {} } } } ∧
    (GenerateSolrPrometheusExporterDeployment e ci).2 ≠ e := by
  constructor
  · simp [GenerateSolrPrometheusExporterDeployment, h]
  · intro heq
    have h2 := congrArg
      (fun x : SolrPrometheusExporter => x.spec.customPrometheusKubeOptions.podOptions) heq
    simp [GenerateSolrPrometheusExporterDeployment, h] at h2

theorem exporterGenerator_initializes_podOptions_witness :
    (({ name := "exp", ns := "d" } :
        SolrPrometheusExporter).spec.customPrometheusKubeOptions.podOptions = none) ∧
    ((GenerateSolrPrometheusExporterDeployment { name := "exp", ns := "d" } {}).2 =
      { ({ name := "exp", ns := "d" } : SolrPrometheusExporter) with
          spec := { ({ name := "exp", ns := "d" } :
              SolrPrometheusExporter).spec with customPrometheusKubeOptions :=
            { ({ name := "exp", ns := "d" } :
                SolrPrometheusExporter).spec.customPrometheusKubeOptions with
                podOptions := some {} } } } ∧
     (GenerateSolrPrometheusExporterDeployment { name := "exp", ns := "d" } {}).2 ≠
       { name := "exp", ns := "d" }) :=
  ⟨by decide, exporterGenerator_initializes_podOptions _ _ (by decide)⟩

end SolrOperator
